import Mathlib

/-!
Verification of the rustycoat 6502 emulator core.

This file is a shallow embedding, in Lean 4, of the parts of the
rustycoat repository that the verified properties talk about:

* `src/rustycoat/src/cpus/c6502.rs` — the cycle-accurate 6502 CPU state
  machine (`C6502`, `step`, the addressing-mode handlers and the
  per-operation functions);
* `src/src/macros.rs` — the byte-manipulation macros (`set_lo_byte!`,
  `set_hi_byte!`, `lo_byte!`, `hi_byte!`, `bcd_add_digits!`);
* `src/rustycoat/src/core/memory.rs` — the banked `Memory` and `RomBank`;
* `src/rustycoat/src/core/ports.rs` — `OutputPort` / `InputPort`;
* `src/rustycoat/src/core/mod.rs` — the legacy `Pin` type.

Machine integers (`u8`, `u16`) are represented as `Nat` with explicit
`% 256` / `% 65536` reductions at the points where the Rust code wraps.
Arithmetic overflow of `+`/`-`/`<<` is modelled with the wrap-around
(release-profile) semantics; an explicit `panic!`, `unreachable!` or
out-of-bounds index in the source is modelled by returning `none`.
Where a claim is specifically about a debug-profile overflow check
(the BCD `SBC` nibble subtraction), a separate checked rendering of the
same source expression is given alongside the wrapping one.

The CPU's connection to `Memory` is abstracted as a read function
`mem : Nat → Nat` plus a log of `write_byte` calls: `Memory::read_byte`
of any fixed memory configuration induces such a function, and the
pointwise update performed by `write_byte` is the raw-RAM case.  The
claims proved about whole instruction executions only depend on this
read/write interface.
-/

/-! ### Byte macros (src/src/macros.rs) -/

/-- `lo_byte!`: `($obj & 0xFF) as u8`. -/
def lo_byte (obj : Nat) : Nat := obj &&& 0xFF

/-- `hi_byte!`: `($obj >> 8) as u8`. -/
def hi_byte (obj : Nat) : Nat := (obj >>> 8) &&& 0xFF

/-- `set_lo_byte!`: `*obj = (*obj & 0xFF00) | (val as u16)`. -/
def set_lo_byte (obj v : Nat) : Nat := (obj &&& 0xFF00) ||| v

/-- `set_hi_byte!`: `*obj = (*obj & 0x00FF) | ((val as u16) << 8)`. -/
def set_hi_byte (obj v : Nat) : Nat := (obj &&& 0x00FF) ||| (v <<< 8)

/-- `bcd_add_digits!`: `let r = x + y + carry; if r > 9 { r + 6 } else { r }`
over `u8` (the `% 256` mirrors `u8` wrap-around; every use in `op_adc`
stays far below 256). -/
def bcd_add_digits (x y carry : Nat) : Nat :=
  let r := (x + y + carry) % 256
  if r > 9 then (r + 6) % 256 else r

/-- The `as i8 as i16 as u16` cast chain applied to a `u8` branch offset. -/
def sign_extend_u8_u16 (v : Nat) : Nat := if v < 128 then v else 0xFF00 + v

/-! ### CPU state (struct C6502 in c6502.rs) -/

inductive CpuState where
  | Off
  | Resetting
  | Running
deriving DecidableEq, Repr

inductive CpuAction where
  | Continue
  | Complete
  | CompleteAndFetch
deriving DecidableEq, Repr

/-- The register file and per-instruction working state of `struct C6502`.
`mem` is the current read view of the attached `Memory`; `writes` logs the
`Memory::write_byte` calls the CPU has issued (address, value). -/
structure C6502 where
  pc : Nat
  ac : Nat
  x : Nat
  y : Nat
  p : Nat
  sp : Nat
  cycle : Nat
  opcode : Nat
  value : Nat
  addr : Nat
  extra_addr : Nat
  mem : Nat → Nat
  writes : List (Nat × Nat)
  state : CpuState

def SR_NEGATIVE : Nat := 0x80
def SR_OVERFLOW : Nat := 0x40
def SR_UNUSED : Nat := 0x20
def SR_BREAK : Nat := 0x10
def SR_BCD : Nat := 0x08
def SR_INTERRUPT_MASK : Nat := 0x04
def SR_ZERO : Nat := 0x02
def SR_CARRY : Nat := 0x01

def STACK_BASE : Nat := 0x0100
def NMI_VECTOR : Nat := 0xFFFA
def RESET_VECTOR : Nat := 0xFFFC
def IRQ_VECTOR : Nat := 0xFFFE

/-- `u8` bitwise complement `!m` (for `m < 256`). -/
def not8 (m : Nat) : Nat := 255 ^^^ m

def C6502.read_byte (s : C6502) (a : Nat) : Nat := s.mem a

def C6502.read_pc_byte (s : C6502) : Nat := s.mem s.pc

/-- `Memory::write_byte` as seen from the CPU: update the read view
pointwise and log the call. -/
def C6502.write_byte (s : C6502) (a v : Nat) : C6502 :=
  { s with mem := fun a' => if a' = a then v else s.mem a',
           writes := s.writes ++ [(a, v)] }

/-- `push_byte`: panics (`none`) on `sp == 0`, else writes to
`STACK_BASE + sp` and decrements `sp`. -/
def C6502.push_byte (s : C6502) (v : Nat) : Option C6502 :=
  if s.sp = 0 then none
  else
    let s' := s.write_byte (STACK_BASE + s.sp) v
    some { s' with sp := s'.sp - 1 }

/-- `incr_stack`: panics (`none`) on `sp == 0xFF`, else increments `sp`. -/
def C6502.incr_stack (s : C6502) : Option C6502 :=
  if s.sp = 0xFF then none else some { s with sp := s.sp + 1 }

def C6502.read_stack_byte (s : C6502) : Nat := s.mem (STACK_BASE + s.sp)

def C6502.set_nz (s : C6502) (value : Nat) : C6502 :=
  { s with p := s.p &&& not8 (SR_ZERO ||| SR_NEGATIVE)
      ||| (if value = 0 then SR_ZERO else 0)
      ||| (if value &&& 0x80 ≠ 0 then SR_NEGATIVE else 0) }

def C6502.set_carry (s : C6502) (value : Bool) : C6502 :=
  { s with p := if value then s.p ||| SR_CARRY else s.p &&& not8 SR_CARRY }

def C6502.set_overflow (s : C6502) (value : Bool) : C6502 :=
  { s with p := if value then s.p ||| SR_OVERFLOW else s.p &&& not8 SR_OVERFLOW }

/-! ### Per-operation functions (`op_*` in c6502.rs) -/

def C6502.op_clc (s : C6502) : C6502 := { s with p := s.p &&& not8 SR_CARRY }
def C6502.op_cli (s : C6502) : C6502 := { s with p := s.p &&& not8 SR_INTERRUPT_MASK }
def C6502.op_clv (s : C6502) : C6502 := { s with p := s.p &&& not8 SR_OVERFLOW }
def C6502.op_cld (s : C6502) : C6502 := { s with p := s.p &&& not8 SR_BCD }
def C6502.op_sei (s : C6502) : C6502 := { s with p := s.p ||| SR_INTERRUPT_MASK }
def C6502.op_sec (s : C6502) : C6502 := { s with p := s.p ||| SR_CARRY }
def C6502.op_sed (s : C6502) : C6502 := { s with p := s.p ||| SR_BCD }

def C6502.op_dex (s : C6502) : C6502 :=
  let x := (s.x + 255) % 256
  C6502.set_nz { s with x := x } x
def C6502.op_dey (s : C6502) : C6502 :=
  let y := (s.y + 255) % 256
  C6502.set_nz { s with y := y } y
def C6502.op_inx (s : C6502) : C6502 :=
  let x := (s.x + 1) % 256
  C6502.set_nz { s with x := x } x
def C6502.op_iny (s : C6502) : C6502 :=
  let y := (s.y + 1) % 256
  C6502.set_nz { s with y := y } y
def C6502.op_txa (s : C6502) : C6502 := C6502.set_nz { s with ac := s.x } s.x
def C6502.op_tya (s : C6502) : C6502 := C6502.set_nz { s with ac := s.y } s.y
def C6502.op_tax (s : C6502) : C6502 := C6502.set_nz { s with x := s.ac } s.ac
def C6502.op_tay (s : C6502) : C6502 := C6502.set_nz { s with y := s.ac } s.ac
def C6502.op_txs (s : C6502) : C6502 := { s with sp := s.x }
def C6502.op_tsx (s : C6502) : C6502 := C6502.set_nz { s with x := s.sp } s.sp
def C6502.op_nop (s : C6502) : C6502 := s

def C6502.op_ora (s : C6502) (value : Nat) : C6502 :=
  let ac := s.ac ||| value
  C6502.set_nz { s with ac := ac } ac

def C6502.op_and (s : C6502) (value : Nat) : C6502 :=
  let ac := s.ac &&& value
  C6502.set_nz { s with ac := ac } ac

def C6502.op_eor (s : C6502) (value : Nat) : C6502 :=
  let ac := s.ac ^^^ value
  C6502.set_nz { s with ac := ac } ac

def C6502.op_asl (s : C6502) (value : Nat) : C6502 × Nat :=
  let result := (value <<< 1) % 256
  let s := s.set_carry (value &&& 0x80 ≠ 0)
  (s.set_nz result, result)

def C6502.op_lsr (s : C6502) (value : Nat) : C6502 × Nat :=
  let result := value >>> 1
  let s := s.set_carry (value &&& 0x01 ≠ 0)
  (s.set_nz result, result)

def C6502.op_dec (s : C6502) (value : Nat) : C6502 × Nat :=
  let result := (value + 255) % 256
  (s.set_nz result, result)

def C6502.op_inc (s : C6502) (value : Nat) : C6502 × Nat :=
  let result := (value + 1) % 256
  (s.set_nz result, result)

def C6502.op_bit (s : C6502) (value : Nat) : C6502 :=
  { s with p := (s.p &&& not8 (SR_NEGATIVE ||| SR_OVERFLOW ||| SR_ZERO))
      ||| (value &&& (SR_NEGATIVE ||| SR_OVERFLOW))
      ||| (if s.ac &&& value = 0 then SR_ZERO else 0) }

def C6502.op_rol (s : C6502) (value : Nat) : C6502 × Nat :=
  let result := ((value <<< 1) % 256) ||| (if s.p &&& SR_CARRY ≠ 0 then 1 else 0)
  let s := s.set_carry (value &&& 0x80 ≠ 0)
  (s.set_nz result, result)

def C6502.op_ror (s : C6502) (value : Nat) : C6502 × Nat :=
  let result := (value >>> 1) ||| (if s.p &&& SR_CARRY ≠ 0 then 0x80 else 0)
  let s := s.set_carry (value &&& 0x01 ≠ 0)
  (s.set_nz result, result)

def C6502.op_lda (s : C6502) (value : Nat) : C6502 :=
  C6502.set_nz { s with ac := value } value

def C6502.op_ldx (s : C6502) (value : Nat) : C6502 :=
  C6502.set_nz { s with x := value } value

def C6502.op_ldy (s : C6502) (value : Nat) : C6502 :=
  C6502.set_nz { s with y := value } value

/-- `op_adc`.  Binary mode uses `overflowing_add` (result and carry-out of
`ac + value` over `u8`) and then folds in the carry-in exactly as the
source does; BCD mode is the digit-wise `bcd_add_digits!` computation. -/
def C6502.op_adc (s : C6502) (value : Nat) : C6502 :=
  if s.p &&& SR_BCD = 0 then
    let result0 := (s.ac + value) % 256
    let carry0 := decide (256 ≤ s.ac + value)
    let rc : Nat × Bool :=
      if s.p &&& SR_CARRY ≠ 0 then
        if result0 = 0xFF then (0, true) else (result0 + 1, carry0)
      else (result0, carry0)
    let overflow := ((s.ac ^^^ rc.1) &&& (value ^^^ rc.1) &&& 0x80) ≠ 0
    let s := { s with ac := rc.1 }
    let s := s.set_overflow overflow
    let s := s.set_carry rc.2
    s.set_nz s.ac
  else
    let d1 := bcd_add_digits (s.ac &&& 0x0F) (value &&& 0x0F) (s.p &&& SR_CARRY)
    let d2 := bcd_add_digits (s.ac >>> 4) (value >>> 4) (d1 >>> 4)
    let s := { s with ac := (d1 &&& 0x0F) ||| ((d2 <<< 4) % 256) }
    s.set_carry (d2 &&& 0x10 ≠ 0)

/-- `op_sbc`.  Binary mode uses `overflowing_sub` plus the borrow-in
adjustment; the BCD branch renders the source's `u8` subtractions
`10 - ((value & 0x0F) + borrow)`, `1 - (d1 >> 4)` and
`10 - ((value >> 4) + (1 - (d1 >> 4)))` with wrap-around semantics
(`sbc_bcd_digits_checked` below is the overflow-checked rendering of the
same expressions). -/
def C6502.op_sbc (s : C6502) (value : Nat) : C6502 :=
  if s.p &&& SR_BCD = 0 then
    let result0 := (s.ac + 256 - value) % 256
    let borrow0 := decide (s.ac < value)
    let rb : Nat × Bool :=
      if s.p &&& SR_CARRY = 0 then
        if result0 = 0 then (0xFF, true) else (result0 - 1, borrow0)
      else (result0, borrow0)
    let overflow := ((s.ac ^^^ rb.1) &&& ((255 - value) ^^^ rb.1) &&& 0x80) ≠ 0
    let s := { s with ac := rb.1 }
    let s := s.set_overflow overflow
    let s := s.set_carry !rb.2
    s.set_nz s.ac
  else
    let borrow := if s.p &&& SR_CARRY = 0 then 1 else 0
    let d1 := bcd_add_digits (s.ac &&& 0x0F)
      ((10 + 256 - ((value &&& 0x0F) + borrow)) % 256) 0
    let d2 := bcd_add_digits (s.ac >>> 4)
      ((10 + 256 - ((value >>> 4) + ((1 + 256 - (d1 >>> 4)) % 256))) % 256) 0
    let s := { s with ac := (d1 &&& 0x0F) ||| ((d2 <<< 4) % 256) }
    s.set_carry (d2 &&& 0x10 ≠ 0)

def C6502.op_compare (s : C6502) (value compare_to : Nat) : C6502 :=
  let result := (compare_to + 256 - value) % 256
  let carry := decide (compare_to < value)
  let s := s.set_carry !carry
  s.set_nz result

def C6502.op_cmp (s : C6502) (value : Nat) : C6502 := s.op_compare value s.ac
def C6502.op_cpx (s : C6502) (value : Nat) : C6502 := s.op_compare value s.x
def C6502.op_cpy (s : C6502) (value : Nat) : C6502 := s.op_compare value s.y

def C6502.op_sta (s : C6502) : C6502 × Nat := (s, s.ac)
def C6502.op_stx (s : C6502) : C6502 × Nat := (s, s.x)
def C6502.op_sty (s : C6502) : C6502 × Nat := (s, s.y)

/-! ### Operation shapes (enum Op) -/

inductive Op where
  | Read (f : C6502 → Nat → C6502)
  | ReadWrite (f : C6502 → Nat → C6502 × Nat)
  | Write (f : C6502 → C6502 × Nat)
  | Implied (f : C6502 → C6502)

def Op.is_read_or_implied : Op → Bool
  | .Read _ | .Implied _ => true
  | _ => false

/-! ### Branch condition tests (`br_*`) -/

def C6502.br_bpl (s : C6502) : Bool := decide (s.p &&& SR_NEGATIVE = 0)
def C6502.br_bmi (s : C6502) : Bool := decide (s.p &&& SR_NEGATIVE ≠ 0)
def C6502.br_bvc (s : C6502) : Bool := decide (s.p &&& SR_OVERFLOW = 0)
def C6502.br_bvs (s : C6502) : Bool := decide (s.p &&& SR_OVERFLOW ≠ 0)
def C6502.br_bcc (s : C6502) : Bool := decide (s.p &&& SR_CARRY = 0)
def C6502.br_bcs (s : C6502) : Bool := decide (s.p &&& SR_CARRY ≠ 0)
def C6502.br_bne (s : C6502) : Bool := decide (s.p &&& SR_ZERO = 0)
def C6502.br_beq (s : C6502) : Bool := decide (s.p &&& SR_ZERO ≠ 0)

/-! ### Instruction handlers.
Each returns `none` exactly where the source panics (`unreachable!()`
arms, stack overflow/underflow).  `u16` increments wrap (`% 65536`). -/

def C6502.do_reset_sequence (s : C6502) : Option C6502 :=
  match s.cycle with
  | 1 => some { s with sp := 0x00 }
  | 2 | 3 => some s
  | 4 => some { s with sp := 0xFF }
  | 5 => some { s with sp := 0xFE }
  | 6 => some { s with sp := 0xFD }
  | 7 => some { s with pc := set_lo_byte s.pc (s.mem RESET_VECTOR) }
  | 8 => some { s with pc := set_hi_byte s.pc (s.mem (RESET_VECTOR + 1)) }
  | _ => none

def C6502.do_brk (s : C6502) : Option (C6502 × CpuAction) :=
  match s.cycle with
  | 2 => some ({ s with pc := (s.pc + 1) % 65536 }, .Continue)
  | 3 => (s.push_byte (hi_byte s.pc)).map (·, .Continue)
  | 4 => (s.push_byte (lo_byte s.pc)).map (·, .Continue)
  | 5 => (s.push_byte (s.p ||| SR_BREAK ||| SR_UNUSED)).map (·, .Continue)
  | 6 => some ({ s with pc := set_lo_byte s.pc (s.mem IRQ_VECTOR) }, .Continue)
  | 7 => some ({ s with pc := set_hi_byte s.pc (s.mem (IRQ_VECTOR + 1)) }, .Complete)
  | _ => none

def C6502.do_rti (s : C6502) : Option (C6502 × CpuAction) :=
  match s.cycle with
  | 2 => some (s, .Continue)
  | 3 => (s.incr_stack).map (·, .Continue)
  | 4 =>
    let s := { s with p := s.read_stack_byte &&& not8 (SR_BREAK ||| SR_UNUSED) }
    (s.incr_stack).map (·, .Continue)
  | 5 =>
    let s := { s with pc := set_lo_byte s.pc s.read_stack_byte }
    (s.incr_stack).map (·, .Continue)
  | 6 => some ({ s with pc := set_hi_byte s.pc s.read_stack_byte }, .Complete)
  | _ => none

def C6502.do_pha (s : C6502) : Option (C6502 × CpuAction) :=
  match s.cycle with
  | 2 => some (s, .Continue)
  | 3 => (s.push_byte s.ac).map (·, .Complete)
  | _ => none

def C6502.do_php (s : C6502) : Option (C6502 × CpuAction) :=
  match s.cycle with
  | 2 => some (s, .Continue)
  | 3 => (s.push_byte (s.p ||| SR_BREAK ||| SR_UNUSED)).map (·, .Complete)
  | _ => none

def C6502.do_jsr (s : C6502) : Option (C6502 × CpuAction) :=
  match s.cycle with
  | 2 => some ({ s with addr := s.read_pc_byte, pc := (s.pc + 1) % 65536 }, .Continue)
  | 3 => some (s, .Continue)
  | 4 => (s.push_byte (hi_byte s.pc)).map (·, .Continue)
  | 5 => (s.push_byte (lo_byte s.pc)).map (·, .Continue)
  | 6 =>
    let s := { s with addr := set_hi_byte s.addr (s.mem s.pc) }
    some ({ s with pc := s.addr }, .Complete)
  | _ => none

def C6502.do_rts (s : C6502) : Option (C6502 × CpuAction) :=
  match s.cycle with
  | 2 => some (s, .Continue)
  | 3 => (s.incr_stack).map (·, .Continue)
  | 4 =>
    let s := { s with pc := set_lo_byte s.pc s.read_stack_byte }
    (s.incr_stack).map (·, .Continue)
  | 5 => some ({ s with pc := set_hi_byte s.pc s.read_stack_byte }, .Continue)
  | 6 => some ({ s with pc := (s.pc + 1) % 65536 }, .Complete)
  | _ => none

def C6502.do_pla (s : C6502) : Option (C6502 × CpuAction) :=
  match s.cycle with
  | 2 => some (s, .Continue)
  | 3 => (s.incr_stack).map (·, .Continue)
  | 4 =>
    let s := { s with ac := s.read_stack_byte }
    some (s.set_nz s.ac, .Complete)
  | _ => none

def C6502.do_plp (s : C6502) : Option (C6502 × CpuAction) :=
  match s.cycle with
  | 2 => some (s, .Continue)
  | 3 => (s.incr_stack).map (·, .Continue)
  | 4 => some ({ s with p := s.read_stack_byte &&& not8 (SR_BREAK ||| SR_UNUSED) }, .Complete)
  | _ => none

def C6502.do_jmp_abs (s : C6502) : Option (C6502 × CpuAction) :=
  match s.cycle with
  | 2 => some ({ s with addr := s.read_pc_byte, pc := (s.pc + 1) % 65536 }, .Continue)
  | 3 =>
    let s := { s with addr := s.addr ||| (s.read_pc_byte <<< 8) }
    some ({ s with pc := s.addr }, .Complete)
  | _ => none

/-- `do_jmp_abs_indirect` — including the page-wrap bug: the high byte of
the target is read from `addr & 0xFF00 | ((addr + 1) & 0xFF)`. -/
def C6502.do_jmp_abs_indirect (s : C6502) : Option (C6502 × CpuAction) :=
  match s.cycle with
  | 2 => some ({ s with addr := s.read_pc_byte, pc := (s.pc + 1) % 65536 }, .Continue)
  | 3 => some ({ s with addr := set_hi_byte s.addr s.read_pc_byte,
                        pc := (s.pc + 1) % 65536 }, .Continue)
  | 4 => some ({ s with extra_addr := s.read_byte s.addr }, .Continue)
  | 5 =>
    let s := { s with pc := s.extra_addr }
    let hb := s.read_byte (s.addr &&& 0xFF00 ||| ((s.addr + 1) &&& 0xFF))
    some ({ s with pc := set_hi_byte s.pc hb }, .Complete)
  | _ => none

def C6502.do_branch (s : C6502) (test : C6502 → Bool) : Option (C6502 × CpuAction) :=
  match s.cycle with
  | 2 =>
    let s := { s with addr := sign_extend_u8_u16 s.read_pc_byte }
    let s := { s with pc := (s.pc + 1) % 65536 }
    if test s then some (s, .Continue) else some (s, .Complete)
  | 3 =>
    let s := { s with addr := (s.pc + s.addr) % 65536 }
    let s := { s with pc := set_lo_byte s.pc (s.addr &&& 0xFF) }
    if s.pc = s.addr then some (s, .Complete) else some (s, .Continue)
  | 4 => some ({ s with pc := s.addr }, .Complete)
  | _ => none

/-- `do_op` — the shared tail of every addressing mode, keyed on
`cycle - start_at + 1`. -/
def C6502.do_op (s : C6502) (op : Op) (start_at : Nat) : Option (C6502 × CpuAction) :=
  match s.cycle - start_at + 1 with
  | 1 =>
    match op with
    | .Read _ | .ReadWrite _ => some ({ s with value := s.read_byte s.addr }, .Continue)
    | .Implied _ => some (s, .Continue)
    | .Write f =>
      let (s', result) := f s
      some (s'.write_byte s'.addr result, .Complete)
  | 2 =>
    match op with
    | .Read f => some (f s s.value, .CompleteAndFetch)
    | .Implied f => some (f s, .CompleteAndFetch)
    | .ReadWrite f =>
      let (s', result) := f s s.value
      some ({ s' with value := result }, .Continue)
    | .Write _ => none
  | 3 => some (s.write_byte s.addr s.value, .Complete)
  | _ => none

def C6502.do_op_immed (s : C6502) (op : Op) : Option (C6502 × CpuAction) :=
  match s.cycle with
  | 2 => some ({ s with value := s.read_pc_byte, pc := (s.pc + 1) % 65536 }, .Continue)
  | 3 =>
    match op with
    | .Read f => some (f s s.value, .CompleteAndFetch)
    | .Implied f => some (f s, .CompleteAndFetch)
    | _ => none
  | _ => none

def C6502.do_op_ac (s : C6502) (op : Op) : Option (C6502 × CpuAction) :=
  match op with
  | .ReadWrite f =>
    match s.cycle with
    | 2 => some (s, .Continue)
    | 3 =>
      let (s', result) := f s s.ac
      some ({ s' with ac := result }, .CompleteAndFetch)
    | _ => none
  | _ => none

def C6502.do_op_implied (s : C6502) (op : Op) : Option (C6502 × CpuAction) :=
  match op with
  | .Implied f =>
    match s.cycle with
    | 2 => some (s, .Continue)
    | 3 => some (f s, .CompleteAndFetch)
    | _ => none
  | _ => none

def C6502.do_op_zeropage (s : C6502) (op : Op) : Option (C6502 × CpuAction) :=
  match s.cycle with
  | 2 => some ({ s with addr := s.read_pc_byte, pc := (s.pc + 1) % 65536 }, .Continue)
  | _ => s.do_op op 3

def C6502.do_op_zeropage_indexed (s : C6502) (op : Op) (offset : Nat) :
    Option (C6502 × CpuAction) :=
  match s.cycle with
  | 2 => some ({ s with addr := s.read_pc_byte, pc := (s.pc + 1) % 65536 }, .Continue)
  | 3 => some ({ s with addr := (s.addr + offset) &&& 0xFF }, .Continue)
  | _ => s.do_op op 4

def C6502.do_op_zeropage_x (s : C6502) (op : Op) : Option (C6502 × CpuAction) :=
  s.do_op_zeropage_indexed op s.x

def C6502.do_op_zeropage_y (s : C6502) (op : Op) : Option (C6502 × CpuAction) :=
  s.do_op_zeropage_indexed op s.y

def C6502.do_op_indexed_indirect (s : C6502) (op : Op) : Option (C6502 × CpuAction) :=
  match s.cycle with
  | 2 => some ({ s with extra_addr := s.read_pc_byte, pc := (s.pc + 1) % 65536 }, .Continue)
  | 3 => some ({ s with extra_addr := (s.extra_addr + s.x) &&& 0xFF }, .Continue)
  | 4 =>
    let s := { s with addr := set_lo_byte s.addr (s.read_byte s.extra_addr) }
    some ({ s with extra_addr := (s.extra_addr + 1) &&& 0xFF }, .Continue)
  | 5 => some ({ s with addr := set_hi_byte s.addr (s.read_byte s.extra_addr) }, .Continue)
  | _ => s.do_op op 6

def C6502.do_op_indirect_indexed (s : C6502) (op : Op) : Option (C6502 × CpuAction) :=
  let is_read := op.is_read_or_implied
  match s.cycle with
  | 2 => some ({ s with extra_addr := s.read_pc_byte, pc := (s.pc + 1) % 65536 }, .Continue)
  | 3 => some ({ s with addr := s.read_byte s.extra_addr }, .Continue)
  | 4 =>
    let addr := s.addr + s.y
    let s := { s with addr := set_lo_byte s.addr (addr &&& 0xFF) }
    let s := { s with addr := set_hi_byte s.addr (s.read_byte ((s.extra_addr + 1) &&& 0xFF)) }
    some ({ s with extra_addr := addr &&& 0x100 }, .Continue)
  | 5 =>
    if is_read = true ∧ s.extra_addr = 0 then s.do_op op 5
    else some ({ s with addr := (s.addr + s.extra_addr) % 65536 }, .Continue)
  | _ => s.do_op op (if is_read = true ∧ s.extra_addr = 0 then 5 else 6)

def C6502.do_op_abs (s : C6502) (op : Op) : Option (C6502 × CpuAction) :=
  match s.cycle with
  | 2 => some ({ s with addr := set_lo_byte s.addr s.read_pc_byte,
                        pc := (s.pc + 1) % 65536 }, .Continue)
  | 3 => some ({ s with addr := set_hi_byte s.addr s.read_pc_byte,
                        pc := (s.pc + 1) % 65536 }, .Continue)
  | _ => s.do_op op 4

def C6502.do_op_abs_indexed (s : C6502) (op : Op) (offset : Nat) :
    Option (C6502 × CpuAction) :=
  let is_read := op.is_read_or_implied
  match s.cycle with
  | 2 => some ({ s with addr := s.read_pc_byte, pc := (s.pc + 1) % 65536 }, .Continue)
  | 3 =>
    let addr := s.addr + offset
    let s := { s with addr := addr &&& 0xFF, extra_addr := addr &&& 0x100 }
    some ({ s with addr := set_hi_byte s.addr s.read_pc_byte,
                   pc := (s.pc + 1) % 65536 }, .Continue)
  | 4 =>
    if is_read = true ∧ s.extra_addr = 0 then s.do_op op 4
    else some ({ s with addr := (s.addr + s.extra_addr) % 65536 }, .Continue)
  | _ => s.do_op op (if is_read = true ∧ s.extra_addr = 0 then 4 else 5)

def C6502.do_op_abs_x (s : C6502) (op : Op) : Option (C6502 × CpuAction) :=
  s.do_op_abs_indexed op s.x

def C6502.do_op_abs_y (s : C6502) (op : Op) : Option (C6502 × CpuAction) :=
  s.do_op_abs_indexed op s.y

/-! ### Opcode dispatch (the `match self.opcode` in `step`) -/

def C6502.dispatch (s : C6502) : Option (C6502 × CpuAction) :=
  match s.opcode with
  | 0x00 => s.do_brk
  | 0x01 => s.do_op_indexed_indirect (.Read C6502.op_ora)
  | 0x04 => s.do_op_zeropage (.Implied C6502.op_nop)
  | 0x05 => s.do_op_zeropage (.Read C6502.op_ora)
  | 0x06 => s.do_op_zeropage (.ReadWrite C6502.op_asl)
  | 0x08 => s.do_php
  | 0x09 => s.do_op_immed (.Read C6502.op_ora)
  | 0x0A => s.do_op_ac (.ReadWrite C6502.op_asl)
  | 0x0C => s.do_op_abs (.Implied C6502.op_nop)
  | 0x0D => s.do_op_abs (.Read C6502.op_ora)
  | 0x0E => s.do_op_abs (.ReadWrite C6502.op_asl)
  | 0x10 => s.do_branch C6502.br_bpl
  | 0x11 => s.do_op_indirect_indexed (.Read C6502.op_ora)
  | 0x14 => s.do_op_zeropage_x (.Implied C6502.op_nop)
  | 0x15 => s.do_op_zeropage_x (.Read C6502.op_ora)
  | 0x16 => s.do_op_zeropage_x (.ReadWrite C6502.op_asl)
  | 0x18 => s.do_op_implied (.Implied C6502.op_clc)
  | 0x19 => s.do_op_abs_y (.Read C6502.op_ora)
  | 0x1A => s.do_op_implied (.Implied C6502.op_nop)
  | 0x1C => s.do_op_abs_x (.Implied C6502.op_nop)
  | 0x1D => s.do_op_abs_x (.Read C6502.op_ora)
  | 0x1E => s.do_op_abs_x (.ReadWrite C6502.op_asl)
  | 0x20 => s.do_jsr
  | 0x21 => s.do_op_indexed_indirect (.Read C6502.op_and)
  | 0x24 => s.do_op_zeropage (.Read C6502.op_bit)
  | 0x25 => s.do_op_zeropage (.Read C6502.op_and)
  | 0x26 => s.do_op_zeropage (.ReadWrite C6502.op_rol)
  | 0x28 => s.do_plp
  | 0x29 => s.do_op_immed (.Read C6502.op_and)
  | 0x2A => s.do_op_ac (.ReadWrite C6502.op_rol)
  | 0x2C => s.do_op_abs (.Read C6502.op_bit)
  | 0x2D => s.do_op_abs (.Read C6502.op_and)
  | 0x2E => s.do_op_abs (.ReadWrite C6502.op_rol)
  | 0x30 => s.do_branch C6502.br_bmi
  | 0x31 => s.do_op_indirect_indexed (.Read C6502.op_and)
  | 0x34 => s.do_op_zeropage_x (.Implied C6502.op_nop)
  | 0x35 => s.do_op_zeropage_x (.Read C6502.op_and)
  | 0x36 => s.do_op_zeropage_x (.ReadWrite C6502.op_rol)
  | 0x38 => s.do_op_implied (.Implied C6502.op_sec)
  | 0x39 => s.do_op_abs_y (.Read C6502.op_and)
  | 0x3A => s.do_op_implied (.Implied C6502.op_nop)
  | 0x3C => s.do_op_abs_x (.Implied C6502.op_nop)
  | 0x3D => s.do_op_abs_x (.Read C6502.op_and)
  | 0x3E => s.do_op_abs_x (.ReadWrite C6502.op_rol)
  | 0x40 => s.do_rti
  | 0x41 => s.do_op_indexed_indirect (.Read C6502.op_eor)
  | 0x44 => s.do_op_zeropage (.Implied C6502.op_nop)
  | 0x45 => s.do_op_zeropage (.Read C6502.op_eor)
  | 0x46 => s.do_op_zeropage (.ReadWrite C6502.op_lsr)
  | 0x48 => s.do_pha
  | 0x49 => s.do_op_immed (.Read C6502.op_eor)
  | 0x4A => s.do_op_ac (.ReadWrite C6502.op_lsr)
  | 0x4C => s.do_jmp_abs
  | 0x4D => s.do_op_abs (.Read C6502.op_eor)
  | 0x4E => s.do_op_abs (.ReadWrite C6502.op_lsr)
  | 0x50 => s.do_branch C6502.br_bvc
  | 0x51 => s.do_op_indirect_indexed (.Read C6502.op_eor)
  | 0x54 => s.do_op_zeropage_x (.Implied C6502.op_nop)
  | 0x55 => s.do_op_zeropage_x (.Read C6502.op_eor)
  | 0x56 => s.do_op_zeropage_x (.ReadWrite C6502.op_lsr)
  | 0x58 => s.do_op_implied (.Implied C6502.op_cli)
  | 0x59 => s.do_op_abs_y (.Read C6502.op_eor)
  | 0x5A => s.do_op_implied (.Implied C6502.op_nop)
  | 0x5C => s.do_op_abs_x (.Implied C6502.op_nop)
  | 0x5D => s.do_op_abs_x (.Read C6502.op_eor)
  | 0x5E => s.do_op_abs_x (.ReadWrite C6502.op_lsr)
  | 0x60 => s.do_rts
  | 0x61 => s.do_op_indexed_indirect (.Read C6502.op_adc)
  | 0x64 => s.do_op_zeropage (.Implied C6502.op_nop)
  | 0x65 => s.do_op_zeropage (.Read C6502.op_adc)
  | 0x66 => s.do_op_zeropage (.ReadWrite C6502.op_ror)
  | 0x68 => s.do_pla
  | 0x69 => s.do_op_immed (.Read C6502.op_adc)
  | 0x6A => s.do_op_ac (.ReadWrite C6502.op_ror)
  | 0x6C => s.do_jmp_abs_indirect
  | 0x6D => s.do_op_abs (.Read C6502.op_adc)
  | 0x6E => s.do_op_abs (.ReadWrite C6502.op_ror)
  | 0x70 => s.do_branch C6502.br_bvs
  | 0x71 => s.do_op_indirect_indexed (.Read C6502.op_adc)
  | 0x74 => s.do_op_zeropage_x (.Implied C6502.op_nop)
  | 0x75 => s.do_op_zeropage_x (.Read C6502.op_adc)
  | 0x76 => s.do_op_zeropage_x (.ReadWrite C6502.op_ror)
  | 0x78 => s.do_op_implied (.Implied C6502.op_sei)
  | 0x79 => s.do_op_abs_y (.Read C6502.op_adc)
  | 0x7A => s.do_op_implied (.Implied C6502.op_nop)
  | 0x7C => s.do_op_abs_x (.Implied C6502.op_nop)
  | 0x7D => s.do_op_abs_x (.Read C6502.op_adc)
  | 0x7E => s.do_op_abs_x (.ReadWrite C6502.op_ror)
  | 0x80 => s.do_op_immed (.Implied C6502.op_nop)
  | 0x81 => s.do_op_indexed_indirect (.Write C6502.op_sta)
  | 0x82 => s.do_op_immed (.Implied C6502.op_nop)
  | 0x84 => s.do_op_zeropage (.Write C6502.op_sty)
  | 0x85 => s.do_op_zeropage (.Write C6502.op_sta)
  | 0x86 => s.do_op_zeropage (.Write C6502.op_stx)
  | 0x88 => s.do_op_implied (.Implied C6502.op_dey)
  | 0x89 => s.do_op_immed (.Implied C6502.op_nop)
  | 0x8A => s.do_op_implied (.Implied C6502.op_txa)
  | 0x8C => s.do_op_abs (.Write C6502.op_sty)
  | 0x8D => s.do_op_abs (.Write C6502.op_sta)
  | 0x8E => s.do_op_abs (.Write C6502.op_stx)
  | 0x90 => s.do_branch C6502.br_bcc
  | 0x91 => s.do_op_indirect_indexed (.Write C6502.op_sta)
  | 0x94 => s.do_op_zeropage_x (.Write C6502.op_sty)
  | 0x95 => s.do_op_zeropage_x (.Write C6502.op_sta)
  | 0x96 => s.do_op_zeropage_y (.Write C6502.op_stx)
  | 0x98 => s.do_op_implied (.Implied C6502.op_tya)
  | 0x99 => s.do_op_abs_y (.Write C6502.op_sta)
  | 0x9A => s.do_op_implied (.Implied C6502.op_txs)
  | 0x9D => s.do_op_abs_x (.Write C6502.op_sta)
  | 0xA0 => s.do_op_immed (.Read C6502.op_ldy)
  | 0xA1 => s.do_op_indexed_indirect (.Read C6502.op_lda)
  | 0xA2 => s.do_op_immed (.Read C6502.op_ldx)
  | 0xA4 => s.do_op_zeropage (.Read C6502.op_ldy)
  | 0xA5 => s.do_op_zeropage (.Read C6502.op_lda)
  | 0xA6 => s.do_op_zeropage (.Read C6502.op_ldx)
  | 0xA8 => s.do_op_implied (.Implied C6502.op_tay)
  | 0xA9 => s.do_op_immed (.Read C6502.op_lda)
  | 0xAA => s.do_op_implied (.Implied C6502.op_tax)
  | 0xAC => s.do_op_abs (.Read C6502.op_ldy)
  | 0xAD => s.do_op_abs (.Read C6502.op_lda)
  | 0xAE => s.do_op_abs (.Read C6502.op_ldx)
  | 0xB0 => s.do_branch C6502.br_bcs
  | 0xB1 => s.do_op_indirect_indexed (.Read C6502.op_lda)
  | 0xB4 => s.do_op_zeropage_x (.Read C6502.op_ldy)
  | 0xB5 => s.do_op_zeropage_x (.Read C6502.op_lda)
  | 0xB6 => s.do_op_zeropage_y (.Read C6502.op_ldx)
  | 0xB8 => s.do_op_implied (.Implied C6502.op_clv)
  | 0xB9 => s.do_op_abs_y (.Read C6502.op_lda)
  | 0xBA => s.do_op_implied (.Implied C6502.op_tsx)
  | 0xBC => s.do_op_abs_x (.Read C6502.op_ldy)
  | 0xBD => s.do_op_abs_x (.Read C6502.op_lda)
  | 0xBE => s.do_op_abs_y (.Read C6502.op_ldx)
  | 0xC0 => s.do_op_immed (.Read C6502.op_cpy)
  | 0xC1 => s.do_op_indexed_indirect (.Read C6502.op_cmp)
  | 0xC2 => s.do_op_immed (.Implied C6502.op_nop)
  | 0xC4 => s.do_op_zeropage (.Read C6502.op_cpy)
  | 0xC5 => s.do_op_zeropage (.Read C6502.op_cmp)
  | 0xC6 => s.do_op_zeropage (.ReadWrite C6502.op_dec)
  | 0xC8 => s.do_op_implied (.Implied C6502.op_iny)
  | 0xC9 => s.do_op_immed (.Read C6502.op_cmp)
  | 0xCA => s.do_op_implied (.Implied C6502.op_dex)
  | 0xCC => s.do_op_abs (.Read C6502.op_cpy)
  | 0xCD => s.do_op_abs (.Read C6502.op_cmp)
  | 0xCE => s.do_op_abs (.ReadWrite C6502.op_dec)
  | 0xD0 => s.do_branch C6502.br_bne
  | 0xD1 => s.do_op_indirect_indexed (.Read C6502.op_cmp)
  | 0xD4 => s.do_op_zeropage_x (.Implied C6502.op_nop)
  | 0xD5 => s.do_op_zeropage_x (.Read C6502.op_cmp)
  | 0xD6 => s.do_op_zeropage_x (.ReadWrite C6502.op_dec)
  | 0xD8 => s.do_op_implied (.Implied C6502.op_cld)
  | 0xD9 => s.do_op_abs_y (.Read C6502.op_cmp)
  | 0xDA => s.do_op_implied (.Implied C6502.op_nop)
  | 0xDC => s.do_op_abs_x (.Implied C6502.op_nop)
  | 0xDD => s.do_op_abs_x (.Read C6502.op_cmp)
  | 0xDE => s.do_op_abs_x (.ReadWrite C6502.op_dec)
  | 0xE0 => s.do_op_immed (.Read C6502.op_cpx)
  | 0xE1 => s.do_op_indexed_indirect (.Read C6502.op_sbc)
  | 0xE2 => s.do_op_immed (.Implied C6502.op_nop)
  | 0xE4 => s.do_op_zeropage (.Read C6502.op_cpx)
  | 0xE5 => s.do_op_zeropage (.Read C6502.op_sbc)
  | 0xE6 => s.do_op_zeropage (.ReadWrite C6502.op_inc)
  | 0xE8 => s.do_op_implied (.Implied C6502.op_inx)
  | 0xE9 => s.do_op_immed (.Read C6502.op_sbc)
  | 0xEA => s.do_op_implied (.Implied C6502.op_nop)
  | 0xEC => s.do_op_abs (.Read C6502.op_cpx)
  | 0xED => s.do_op_abs (.Read C6502.op_sbc)
  | 0xEE => s.do_op_abs (.ReadWrite C6502.op_inc)
  | 0xF0 => s.do_branch C6502.br_beq
  | 0xF1 => s.do_op_indirect_indexed (.Read C6502.op_sbc)
  | 0xF4 => s.do_op_zeropage_x (.Implied C6502.op_nop)
  | 0xF5 => s.do_op_zeropage_x (.Read C6502.op_sbc)
  | 0xF6 => s.do_op_zeropage_x (.ReadWrite C6502.op_inc)
  | 0xF8 => s.do_op_implied (.Implied C6502.op_sed)
  | 0xF9 => s.do_op_abs_y (.Read C6502.op_sbc)
  | 0xFA => s.do_op_implied (.Implied C6502.op_nop)
  | 0xFC => s.do_op_abs_x (.Implied C6502.op_nop)
  | 0xFD => s.do_op_abs_x (.Read C6502.op_sbc)
  | 0xFE => s.do_op_abs_x (.ReadWrite C6502.op_inc)
  | _ => none

/-- `reset()`: move to `Resetting` with `cycle = 1`. -/
def C6502.reset (s : C6502) : C6502 :=
  { s with state := .Resetting, cycle := 1 }

/-- `step()` — one T-state.  `none` models a panic (illegal opcode,
`unreachable!`, stack misuse). -/
def C6502.step (s : C6502) : Option (C6502 × CpuAction) :=
  match s.state with
  | .Running =>
    if s.cycle = 1 then
      some ({ s with opcode := s.read_pc_byte, pc := (s.pc + 1) % 65536, cycle := 2 },
        .Continue)
    else
      (s.dispatch).map fun (s', a) =>
        match a with
        | .Continue => ({ s' with cycle := s'.cycle + 1 }, a)
        | .Complete => ({ s' with cycle := 1 }, a)
        | .CompleteAndFetch =>
          ({ s' with opcode := s'.read_pc_byte, pc := (s'.pc + 1) % 65536, cycle := 2 }, a)
  | .Off => some (s, .Continue)
  | .Resetting =>
    (s.do_reset_sequence).map fun s' =>
      if s'.cycle = 8 then ({ s' with state := .Running, cycle := 1 }, .Complete)
      else ({ s' with cycle := s'.cycle + 1 }, .Continue)

/-! ### Running the machine -/

/-- Iterate `step` `n` times, keeping only the state. -/
def stepN : Nat → C6502 → Option C6502
  | 0, s => some s
  | n + 1, s =>
    match s.step with
    | none => none
    | some (s', _) => stepN n s'

/-- Run `step` until it returns something other than `Continue` (the loop in
the test harness `CpuTest::run`).  Returns the final state, the number of
`step()` calls made, and the last action.  `none` if the fuel runs out or a
step panics. -/
def runUntilDone : Nat → C6502 → Option (C6502 × Nat × CpuAction)
  | 0, _ => none
  | fuel + 1, s =>
    match s.step with
    | none => none
    | some (s', a) =>
      match a with
      | .Continue =>
        (runUntilDone fuel s').map fun r => (r.1, r.2.1 + 1, r.2.2)
      | _ => some (s', 1, a)

/-- Cycle count of one instruction, following the convention of
`c6502_tests.rs::run`: count `step()` calls until the action is not
`Continue`, and subtract one when the final action is `CompleteAndFetch`
(that T-state belongs to the next instruction's fetch). -/
def instruction_cycles (fuel : Nat) (s : C6502) : Option Nat :=
  (runUntilDone fuel s).map fun r =>
    if r.2.2 = CpuAction.CompleteAndFetch then r.2.1 - 1 else r.2.1

/-- Final `pc` of one instruction run. -/
def final_pc (fuel : Nat) (s : C6502) : Option Nat :=
  (runUntilDone fuel s).map fun r => r.1.pc

/-! ### Arithmetic bridges for the bit operations -/

set_option maxRecDepth 8000
set_option maxHeartbeats 4000000

theorem and255_eq_mod (x : Nat) : x &&& 255 = x % 256 := by
  have h := Nat.and_pow_two_sub_one_eq_mod x 8
  norm_num at h
  exact h

theorem and15_eq_mod (x : Nat) : x &&& 15 = x % 16 := by
  have h := Nat.and_pow_two_sub_one_eq_mod x 4
  norm_num at h
  exact h

theorem shiftLeft8_eq_mul (x : Nat) : x <<< 8 = x * 256 := by
  rw [Nat.shiftLeft_eq]

theorem shiftRight8_eq_div (x : Nat) : x >>> 8 = x / 256 := by
  rw [Nat.shiftRight_eq_div_pow]

theorem shiftRight4_eq_div (x : Nat) : x >>> 4 = x / 16 := by
  rw [Nat.shiftRight_eq_div_pow]

theorem mul256_or_eq_add (a b : Nat) (hb : b < 256) : (256 * a) ||| b = 256 * a + b := by
  have h := Nat.mul_add_lt_is_or (a := a) (i := 8) (by omega : b < 2 ^ 8)
  norm_num at h
  omega

theorem or_shiftLeft8_eq_add (l h' : Nat) (hl : l < 256) : l ||| (h' <<< 8) = h' * 256 + l := by
  rw [Nat.or_comm, shiftLeft8_eq_mul, mul_comm, mul256_or_eq_add _ _ hl]

theorem lt256_and_ff00 : ∀ r < 256, r &&& 65280 = 0 := by decide

theorem mul256_and_ff00 : ∀ q < 256, (256 * q) &&& 65280 = 256 * q := by decide

theorem and_ff00_eq (x : Nat) (hx : x < 65536) : x &&& 65280 = x / 256 * 256 := by
  have e : 256 * (x / 256) + x % 256 = x := Nat.div_add_mod x 256
  have hq : x / 256 < 256 := by omega
  have hr : x % 256 < 256 := Nat.mod_lt _ (by norm_num)
  calc x &&& 65280 = ((256 * (x / 256)) ||| (x % 256)) &&& 65280 := by
        rw [mul256_or_eq_add _ _ hr, e]
    _ = ((256 * (x / 256)) &&& 65280) ||| ((x % 256) &&& 65280) := Nat.and_distrib_right ..
    _ = x / 256 * 256 := by
        rw [mul256_and_ff00 _ hq, lt256_and_ff00 _ hr]
        simp [Nat.mul_comm]

theorem and_256_eq_zero_iff : ∀ c < 512, (c &&& 256 = 0 ↔ c < 256) := by decide

theorem and_256_eq_of_ge : ∀ c < 512, 256 ≤ c → c &&& 256 = 256 := by decide

/-! ### Status-flag bit extraction -/

theorem and_mask_ne_iff (x k : Nat) : x &&& 2 ^ k ≠ 0 ↔ x.testBit k = true := by
  rw [Nat.and_two_pow]
  cases h : x.testBit k <;> simp [h]

theorem and_carry_ne_iff (x : Nat) : x &&& SR_CARRY ≠ 0 ↔ x.testBit 0 = true := by
  have h := and_mask_ne_iff x 0
  norm_num at h
  simpa [SR_CARRY] using h

theorem and_zero_flag_ne_iff (x : Nat) : x &&& SR_ZERO ≠ 0 ↔ x.testBit 1 = true := by
  have h := and_mask_ne_iff x 1
  norm_num at h
  simpa [SR_ZERO] using h

theorem and_overflow_ne_iff (x : Nat) : x &&& SR_OVERFLOW ≠ 0 ↔ x.testBit 6 = true := by
  have h := and_mask_ne_iff x 6
  norm_num at h
  simpa [SR_OVERFLOW] using h

theorem and_negative_ne_iff (x : Nat) : x &&& SR_NEGATIVE ≠ 0 ↔ x.testBit 7 = true := by
  have h := and_mask_ne_iff x 7
  norm_num at h
  simpa [SR_NEGATIVE] using h

theorem not8_1 : not8 1 = 254 := by decide

theorem not8_2 : not8 2 = 253 := by decide

theorem not8_64 : not8 64 = 191 := by decide

theorem not8_128 : not8 128 = 127 := by decide

theorem not8_130 : not8 130 = 125 := by decide

theorem not8_194 : not8 194 = 61 := by decide

theorem not8_48 : not8 48 = 207 := by decide

theorem not8_4 : not8 4 = 251 := by decide

theorem not8_8 : not8 8 = 247 := by decide

theorem tb254 : Nat.testBit 254 0 = false ∧ Nat.testBit 254 1 = true ∧
    Nat.testBit 254 6 = true ∧ Nat.testBit 254 7 = true := by decide

theorem tb191 : Nat.testBit 191 0 = true ∧ Nat.testBit 191 1 = true ∧
    Nat.testBit 191 6 = false ∧ Nat.testBit 191 7 = true := by decide

theorem tb125 : Nat.testBit 125 0 = true ∧ Nat.testBit 125 1 = false ∧
    Nat.testBit 125 6 = true ∧ Nat.testBit 125 7 = false := by decide

theorem tb1 : Nat.testBit 1 0 = true ∧ Nat.testBit 1 1 = false ∧
    Nat.testBit 1 6 = false ∧ Nat.testBit 1 7 = false := by decide

theorem tb2 : Nat.testBit 2 0 = false ∧ Nat.testBit 2 1 = true ∧
    Nat.testBit 2 6 = false ∧ Nat.testBit 2 7 = false := by decide

theorem tb64 : Nat.testBit 64 0 = false ∧ Nat.testBit 64 1 = false ∧
    Nat.testBit 64 6 = true ∧ Nat.testBit 64 7 = false := by decide

theorem tb128 : Nat.testBit 128 0 = false ∧ Nat.testBit 128 1 = false ∧
    Nat.testBit 128 6 = false ∧ Nat.testBit 128 7 = true := by decide

theorem epilogue_carry (s0 : C6502) (b c : Bool) (v : Nat) :
    ((((s0.set_overflow b).set_carry c).set_nz v).p &&& SR_CARRY ≠ 0) ↔ c = true := by
  rw [and_carry_ne_iff]
  cases b <;> cases c <;>
    simp [C6502.set_overflow, C6502.set_carry, C6502.set_nz, not8_1, not8_2, not8_64, not8_128, not8_130, not8_194, not8_48, not8_4, not8_8,
      SR_CARRY, SR_ZERO, SR_NEGATIVE, SR_OVERFLOW] <;>
    split_ifs <;>
    simp [Nat.testBit_or, Nat.testBit_and, tb254.1, tb254.2.1, tb254.2.2.1, tb254.2.2.2,
      tb191.1, tb191.2.1, tb191.2.2.1, tb191.2.2.2, tb125.1, tb125.2.1, tb125.2.2.1,
      tb125.2.2.2, tb1.1, tb1.2.1, tb1.2.2.1, tb1.2.2.2, tb2.1, tb2.2.1, tb2.2.2.1,
      tb2.2.2.2, tb64.1, tb64.2.1, tb64.2.2.1, tb64.2.2.2, tb128.1, tb128.2.1,
      tb128.2.2.1, tb128.2.2.2]


theorem epilogue_overflow (s0 : C6502) (b c : Bool) (v : Nat) :
    ((((s0.set_overflow b).set_carry c).set_nz v).p &&& SR_OVERFLOW ≠ 0) ↔ b = true := by
  rw [and_overflow_ne_iff]
  cases b <;> cases c <;>
    simp [C6502.set_overflow, C6502.set_carry, C6502.set_nz, not8_1, not8_2, not8_64,
      not8_128, not8_130, not8_194, not8_48, not8_4, not8_8,
      SR_CARRY, SR_ZERO, SR_NEGATIVE, SR_OVERFLOW] <;>
    split_ifs <;>
    simp [Nat.testBit_or, Nat.testBit_and, tb254.1, tb254.2.1, tb254.2.2.1, tb254.2.2.2,
      tb191.1, tb191.2.1, tb191.2.2.1, tb191.2.2.2, tb125.1, tb125.2.1, tb125.2.2.1,
      tb125.2.2.2, tb1.1, tb1.2.1, tb1.2.2.1, tb1.2.2.2, tb2.1, tb2.2.1, tb2.2.2.1,
      tb2.2.2.2, tb64.1, tb64.2.1, tb64.2.2.1, tb64.2.2.2, tb128.1, tb128.2.1,
      tb128.2.2.1, tb128.2.2.2]

theorem epilogue_negative (s0 : C6502) (b c : Bool) (v : Nat) :
    ((((s0.set_overflow b).set_carry c).set_nz v).p &&& SR_NEGATIVE ≠ 0) ↔ v &&& 0x80 ≠ 0 := by
  rw [and_negative_ne_iff]
  cases b <;> cases c <;>
    simp [C6502.set_overflow, C6502.set_carry, C6502.set_nz, not8_1, not8_2, not8_64,
      not8_128, not8_130, not8_194, not8_48, not8_4, not8_8,
      SR_CARRY, SR_ZERO, SR_NEGATIVE, SR_OVERFLOW] <;>
    split_ifs <;>
    simp_all [Nat.testBit_or, Nat.testBit_and, tb254.1, tb254.2.1, tb254.2.2.1, tb254.2.2.2,
      tb191.1, tb191.2.1, tb191.2.2.1, tb191.2.2.2, tb125.1, tb125.2.1, tb125.2.2.1,
      tb125.2.2.2, tb1.1, tb1.2.1, tb1.2.2.1, tb1.2.2.2, tb2.1, tb2.2.1, tb2.2.2.1,
      tb2.2.2.2, tb64.1, tb64.2.1, tb64.2.2.1, tb64.2.2.2, tb128.1, tb128.2.1,
      tb128.2.2.1, tb128.2.2.2]

theorem epilogue_zero (s0 : C6502) (b c : Bool) (v : Nat) :
    ((((s0.set_overflow b).set_carry c).set_nz v).p &&& SR_ZERO ≠ 0) ↔ v = 0 := by
  rw [and_zero_flag_ne_iff]
  cases b <;> cases c <;>
    simp [C6502.set_overflow, C6502.set_carry, C6502.set_nz, not8_1, not8_2, not8_64,
      not8_128, not8_130, not8_194, not8_48, not8_4, not8_8,
      SR_CARRY, SR_ZERO, SR_NEGATIVE, SR_OVERFLOW] <;>
    split_ifs <;>
    simp_all [Nat.testBit_or, Nat.testBit_and, tb254.1, tb254.2.1, tb254.2.2.1, tb254.2.2.2,
      tb191.1, tb191.2.1, tb191.2.2.1, tb191.2.2.2, tb125.1, tb125.2.1, tb125.2.2.1,
      tb125.2.2.2, tb1.1, tb1.2.1, tb1.2.2.1, tb1.2.2.2, tb2.1, tb2.2.1, tb2.2.2.1,
      tb2.2.2.2, tb64.1, tb64.2.1, tb64.2.2.1, tb64.2.2.2, tb128.1, tb128.2.1,
      tb128.2.2.1, tb128.2.2.2]

theorem epilogue_ac (s0 : C6502) (b c : Bool) (v : Nat) :
    (((s0.set_overflow b).set_carry c).set_nz v).ac = s0.ac := by
  cases b <;> cases c <;> simp [C6502.set_overflow, C6502.set_carry, C6502.set_nz]

theorem set_overflow_ac (s : C6502) (b : Bool) : (s.set_overflow b).ac = s.ac := by
  cases b <;> simp [C6502.set_overflow]

theorem set_carry_ac (s : C6502) (b : Bool) : (s.set_carry b).ac = s.ac := by
  cases b <;> simp [C6502.set_carry]

/-- C1: In binary mode (BCD flag clear), for every accumulator value, operand
value and incoming carry bit, `op_adc` leaves the accumulator equal to
`(ac + value + carry_in) % 256`, sets the carry flag exactly when
`ac + value + carry_in ≥ 256`, sets the overflow flag exactly when
`((ac ^^^ r) &&& (value ^^^ r) &&& 0x80) ≠ 0`, and sets N and Z from the
result. -/
theorem C1_adc_binary_mode (s : C6502) (value : Nat)
    (hac : s.ac < 256) (hv : value < 256) (hbcd : s.p &&& SR_BCD = 0) :
    (s.op_adc value).ac = (s.ac + value + (s.p &&& SR_CARRY)) % 256 ∧
    ((s.op_adc value).p &&& SR_CARRY ≠ 0 ↔
      256 ≤ s.ac + value + (s.p &&& SR_CARRY)) ∧
    ((s.op_adc value).p &&& SR_OVERFLOW ≠ 0 ↔
      (s.ac ^^^ (s.ac + value + (s.p &&& SR_CARRY)) % 256) &&&
        (value ^^^ (s.ac + value + (s.p &&& SR_CARRY)) % 256) &&& 0x80 ≠ 0) ∧
    ((s.op_adc value).p &&& SR_NEGATIVE ≠ 0 ↔
      (s.ac + value + (s.p &&& SR_CARRY)) % 256 &&& 0x80 ≠ 0) ∧
    ((s.op_adc value).p &&& SR_ZERO ≠ 0 ↔
      (s.ac + value + (s.p &&& SR_CARRY)) % 256 = 0) := by
  have hc1m : s.p &&& SR_CARRY = s.p % 2 := by
    simp [SR_CARRY, Nat.and_one_is_mod]
  by_cases hc : s.p &&& SR_CARRY = 0
  · -- carry-in clear
    simp only [C6502.op_adc, hbcd, hc, eq_self_iff_true, if_true, ne_eq,
      not_true_eq_false, if_false, ite_false, ite_true, not_false_eq_true]
    simp [set_overflow_ac, set_carry_ac, epilogue_ac, epilogue_carry, epilogue_overflow, epilogue_negative,
      epilogue_zero, hc]
  · -- carry-in set
    have hc1 : s.p &&& SR_CARRY = 1 := by
      rw [hc1m] at hc ⊢
      omega
    by_cases h255 : (s.ac + value) % 256 = 255
    · have hr : (s.ac + value + (s.p &&& SR_CARRY)) % 256 = 0 := by
        rw [hc1]
        omega
      have hcar : 256 ≤ s.ac + value + (s.p &&& SR_CARRY) := by
        rw [hc1]
        omega
      simp only [C6502.op_adc, hbcd, hc, h255, eq_self_iff_true, if_true, ne_eq,
        not_false_eq_true, ite_true, ite_false]
      simp [set_overflow_ac, set_carry_ac, epilogue_ac, epilogue_carry, epilogue_overflow, epilogue_negative,
        epilogue_zero, hr, hcar]
    · have hr : (s.ac + value + (s.p &&& SR_CARRY)) % 256 = (s.ac + value) % 256 + 1 := by
        rw [hc1]
        omega
      have hcar : (256 ≤ s.ac + value + (s.p &&& SR_CARRY)) ↔ (256 ≤ s.ac + value) := by
        rw [hc1]
        omega
      simp only [C6502.op_adc, hbcd, hc, h255, eq_self_iff_true, if_true, ne_eq,
        not_false_eq_true, ite_true, ite_false]
      simp [set_overflow_ac, set_carry_ac, epilogue_ac, epilogue_carry, epilogue_overflow, epilogue_negative,
        epilogue_zero, hr, hcar]

def adc_witness_state : C6502 :=
  { pc := 0x0400, ac := 0x50, x := 0, y := 0, p := 0, sp := 0xFF, cycle := 1, opcode := 0,
    value := 0, addr := 0, extra_addr := 0, mem := fun _ => 0, writes := [], state := .Running }

theorem C1_adc_binary_mode_witness :
    adc_witness_state.ac < 256 ∧ 16 < 256 ∧ adc_witness_state.p &&& SR_BCD = 0 ∧
    (adc_witness_state.op_adc 16).ac = 0x60 := by
  refine ⟨by decide, by decide, by decide, ?_⟩
  have h := (C1_adc_binary_mode adc_witness_state 16 (by decide) (by decide) (by decide)).1
  simpa [adc_witness_state, SR_CARRY] using h

/-! ### Debug-profile rendering of the BCD SBC nibble arithmetic -/

/-- `u8` subtraction with the debug-profile overflow check: `none` models
the `attempt to subtract with overflow` panic. -/
def u8_checked_sub (a b : Nat) : Option Nat := if b ≤ a then some (a - b) else none

/-- The BCD branch of `op_sbc`, with each of the source's `u8` subtractions
(`10 - ((value & 0x0F) + borrow)`, `1 - (d1 >> 4)` and
`10 - ((value >> 4) + (1 - (d1 >> 4)))`) rendered as `u8_checked_sub`.
Returns the two digit sums `(d1, d2)` fed into the accumulator update. -/
def sbc_bcd_digits_checked (ac value p : Nat) : Option (Nat × Nat) :=
  let borrow := if p &&& SR_CARRY = 0 then 1 else 0
  match u8_checked_sub 10 ((value &&& 0x0F) + borrow) with
  | none => none
  | some t1 =>
    let d1 := bcd_add_digits (ac &&& 0x0F) t1 0
    match u8_checked_sub 1 (d1 >>> 4) with
    | none => none
    | some c2 =>
      match u8_checked_sub 10 ((value >>> 4) + c2) with
      | none => none
      | some t2 => some (d1, bcd_add_digits (ac >>> 4) t2 0)

/-- C9: in BCD mode, SBC computes each digit via
`10 - ((value & 0x0F) + borrow)` (and the analogous high-nibble
expression).  For every operand whose two nibbles are valid BCD digits
(at most 9) these `u8` subtractions never underflow; for the operand with
low nibble `$F` and the carry flag clear the subtrahend is `16 > 10` and
the first subtraction underflows. -/
theorem C9_sbc_bcd_underflow :
    (∀ ac value p : Nat, value &&& 0x0F ≤ 9 → value >>> 4 ≤ 9 →
      (sbc_bcd_digits_checked ac value p).isSome) ∧
    sbc_bcd_digits_checked 0 0x0F 0x08 = none := by
  constructor
  · intro ac value p h1 h2
    rw [and15_eq_mod] at h1
    rw [shiftRight4_eq_div] at h2
    have hac16 : ac % 16 < 16 := Nat.mod_lt _ (by norm_num)
    unfold sbc_bcd_digits_checked u8_checked_sub
    simp only [and15_eq_mod, shiftRight4_eq_div]
    by_cases hp : p &&& SR_CARRY = 0 <;>
      simp only [hp, if_true, if_false, ite_true, ite_false, reduceIte]
    · have hc1 : value % 16 + 1 ≤ 10 := by omega
      rw [if_pos hc1]
      have hd14 : bcd_add_digits (ac % 16) (9 - value % 16) 0 / 16 ≤ 1 := by
        unfold bcd_add_digits
        simp only []
        split_ifs <;> omega
      have hc2 : value / 16 + (1 - bcd_add_digits (ac % 16) (9 - value % 16) 0 / 16) ≤ 10 := by
        omega
      simp [hd14, hc2]
    · have hc1 : value % 16 + 0 ≤ 10 := by omega
      rw [if_pos hc1]
      have hd14 : bcd_add_digits (ac % 16) (10 - value % 16) 0 / 16 ≤ 1 := by
        unfold bcd_add_digits
        simp only []
        split_ifs <;> omega
      have hc2 : value / 16 + (1 - bcd_add_digits (ac % 16) (10 - value % 16) 0 / 16) ≤ 10 := by
        omega
      simp [hd14, hc2]
  · decide

theorem C9_sbc_bcd_underflow_witness :
    (0x42 &&& 0x0F ≤ 9 ∧ 0x42 >>> 4 ≤ 9) ∧
    (sbc_bcd_digits_checked 0x75 0x42 0x01).isSome := by
  refine ⟨by decide, ?_⟩
  exact C9_sbc_bcd_underflow.1 0x75 0x42 0x01 (by decide) (by decide)

/-- C8: pushing onto a full stack and popping from an empty stack are fatal
aborts: `push_byte` panics (`none`) when `sp = 0` — the check precedes the
memory write — and `incr_stack` (used by every pop) panics when
`sp = 0xFF`; with `sp > 0` every push succeeds and with `sp < 0xFF` every
pop-increment succeeds. -/
theorem C8_stack_aborts :
    (∀ (s : C6502) (v : Nat), s.sp = 0 → s.push_byte v = none) ∧
    (∀ (s : C6502) (v : Nat), 0 < s.sp → ∃ s', s.push_byte v = some s' ∧
      s'.sp = s.sp - 1 ∧ s'.writes = s.writes ++ [(STACK_BASE + s.sp, v)]) ∧
    (∀ s : C6502, s.sp = 0xFF → s.incr_stack = none) ∧
    (∀ s : C6502, s.sp < 0xFF → ∃ s', s.incr_stack = some s' ∧ s'.sp = s.sp + 1) := by
  refine ⟨?_, ?_, ?_, ?_⟩
  · intro s v h
    simp [C6502.push_byte, h]
  · intro s v h
    have hsp : ¬ s.sp = 0 := by omega
    simp only [C6502.push_byte, hsp, if_false]
    exact ⟨_, rfl, by simp [C6502.write_byte], by simp [C6502.write_byte]⟩
  · intro s h
    simp [C6502.incr_stack, h]
  · intro s h
    have hsp : ¬ s.sp = 255 := by omega
    simp only [C6502.incr_stack, hsp, if_false]
    exact ⟨_, rfl, rfl⟩

def empty_stack_state : C6502 :=
  { adc_witness_state with sp := 0 }

theorem C8_stack_aborts_witness :
    empty_stack_state.sp = 0 ∧ empty_stack_state.push_byte 7 = none := by
  refine ⟨rfl, ?_⟩
  exact C8_stack_aborts.1 empty_stack_state 7 rfl

/-! ### Dispatch reduction lemmas (one per opcode used in the proofs) -/

theorem dispatch_eq_0x10 (s : C6502) (h : s.opcode = 0x10) :
    s.dispatch = s.do_branch C6502.br_bpl := by
  unfold C6502.dispatch
  rw [h]

theorem dispatch_eq_0x19 (s : C6502) (h : s.opcode = 0x19) :
    s.dispatch = s.do_op_abs_y (Op.Read C6502.op_ora) := by
  unfold C6502.dispatch
  rw [h]

theorem dispatch_eq_0x1D (s : C6502) (h : s.opcode = 0x1D) :
    s.dispatch = s.do_op_abs_x (Op.Read C6502.op_ora) := by
  unfold C6502.dispatch
  rw [h]

theorem dispatch_eq_0x1E (s : C6502) (h : s.opcode = 0x1E) :
    s.dispatch = s.do_op_abs_x (Op.ReadWrite C6502.op_asl) := by
  unfold C6502.dispatch
  rw [h]

theorem dispatch_eq_0x30 (s : C6502) (h : s.opcode = 0x30) :
    s.dispatch = s.do_branch C6502.br_bmi := by
  unfold C6502.dispatch
  rw [h]

theorem dispatch_eq_0x39 (s : C6502) (h : s.opcode = 0x39) :
    s.dispatch = s.do_op_abs_y (Op.Read C6502.op_and) := by
  unfold C6502.dispatch
  rw [h]

theorem dispatch_eq_0x3D (s : C6502) (h : s.opcode = 0x3D) :
    s.dispatch = s.do_op_abs_x (Op.Read C6502.op_and) := by
  unfold C6502.dispatch
  rw [h]

theorem dispatch_eq_0x3E (s : C6502) (h : s.opcode = 0x3E) :
    s.dispatch = s.do_op_abs_x (Op.ReadWrite C6502.op_rol) := by
  unfold C6502.dispatch
  rw [h]

theorem dispatch_eq_0x50 (s : C6502) (h : s.opcode = 0x50) :
    s.dispatch = s.do_branch C6502.br_bvc := by
  unfold C6502.dispatch
  rw [h]

theorem dispatch_eq_0x59 (s : C6502) (h : s.opcode = 0x59) :
    s.dispatch = s.do_op_abs_y (Op.Read C6502.op_eor) := by
  unfold C6502.dispatch
  rw [h]

theorem dispatch_eq_0x5D (s : C6502) (h : s.opcode = 0x5D) :
    s.dispatch = s.do_op_abs_x (Op.Read C6502.op_eor) := by
  unfold C6502.dispatch
  rw [h]

theorem dispatch_eq_0x5E (s : C6502) (h : s.opcode = 0x5E) :
    s.dispatch = s.do_op_abs_x (Op.ReadWrite C6502.op_lsr) := by
  unfold C6502.dispatch
  rw [h]

theorem dispatch_eq_0x70 (s : C6502) (h : s.opcode = 0x70) :
    s.dispatch = s.do_branch C6502.br_bvs := by
  unfold C6502.dispatch
  rw [h]

theorem dispatch_eq_0x79 (s : C6502) (h : s.opcode = 0x79) :
    s.dispatch = s.do_op_abs_y (Op.Read C6502.op_adc) := by
  unfold C6502.dispatch
  rw [h]

theorem dispatch_eq_0x7D (s : C6502) (h : s.opcode = 0x7D) :
    s.dispatch = s.do_op_abs_x (Op.Read C6502.op_adc) := by
  unfold C6502.dispatch
  rw [h]

theorem dispatch_eq_0x7E (s : C6502) (h : s.opcode = 0x7E) :
    s.dispatch = s.do_op_abs_x (Op.ReadWrite C6502.op_ror) := by
  unfold C6502.dispatch
  rw [h]

theorem dispatch_eq_0x90 (s : C6502) (h : s.opcode = 0x90) :
    s.dispatch = s.do_branch C6502.br_bcc := by
  unfold C6502.dispatch
  rw [h]

theorem dispatch_eq_0x99 (s : C6502) (h : s.opcode = 0x99) :
    s.dispatch = s.do_op_abs_y (Op.Write C6502.op_sta) := by
  unfold C6502.dispatch
  rw [h]

theorem dispatch_eq_0x9D (s : C6502) (h : s.opcode = 0x9D) :
    s.dispatch = s.do_op_abs_x (Op.Write C6502.op_sta) := by
  unfold C6502.dispatch
  rw [h]

theorem dispatch_eq_0xB0 (s : C6502) (h : s.opcode = 0xB0) :
    s.dispatch = s.do_branch C6502.br_bcs := by
  unfold C6502.dispatch
  rw [h]

theorem dispatch_eq_0xB9 (s : C6502) (h : s.opcode = 0xB9) :
    s.dispatch = s.do_op_abs_y (Op.Read C6502.op_lda) := by
  unfold C6502.dispatch
  rw [h]

theorem dispatch_eq_0xBC (s : C6502) (h : s.opcode = 0xBC) :
    s.dispatch = s.do_op_abs_x (Op.Read C6502.op_ldy) := by
  unfold C6502.dispatch
  rw [h]

theorem dispatch_eq_0xBD (s : C6502) (h : s.opcode = 0xBD) :
    s.dispatch = s.do_op_abs_x (Op.Read C6502.op_lda) := by
  unfold C6502.dispatch
  rw [h]

theorem dispatch_eq_0xBE (s : C6502) (h : s.opcode = 0xBE) :
    s.dispatch = s.do_op_abs_y (Op.Read C6502.op_ldx) := by
  unfold C6502.dispatch
  rw [h]

theorem dispatch_eq_0xD0 (s : C6502) (h : s.opcode = 0xD0) :
    s.dispatch = s.do_branch C6502.br_bne := by
  unfold C6502.dispatch
  rw [h]

theorem dispatch_eq_0xD9 (s : C6502) (h : s.opcode = 0xD9) :
    s.dispatch = s.do_op_abs_y (Op.Read C6502.op_cmp) := by
  unfold C6502.dispatch
  rw [h]

theorem dispatch_eq_0xDD (s : C6502) (h : s.opcode = 0xDD) :
    s.dispatch = s.do_op_abs_x (Op.Read C6502.op_cmp) := by
  unfold C6502.dispatch
  rw [h]

theorem dispatch_eq_0xDE (s : C6502) (h : s.opcode = 0xDE) :
    s.dispatch = s.do_op_abs_x (Op.ReadWrite C6502.op_dec) := by
  unfold C6502.dispatch
  rw [h]

theorem dispatch_eq_0xF0 (s : C6502) (h : s.opcode = 0xF0) :
    s.dispatch = s.do_branch C6502.br_beq := by
  unfold C6502.dispatch
  rw [h]

theorem dispatch_eq_0xF9 (s : C6502) (h : s.opcode = 0xF9) :
    s.dispatch = s.do_op_abs_y (Op.Read C6502.op_sbc) := by
  unfold C6502.dispatch
  rw [h]

theorem dispatch_eq_0xFD (s : C6502) (h : s.opcode = 0xFD) :
    s.dispatch = s.do_op_abs_x (Op.Read C6502.op_sbc) := by
  unfold C6502.dispatch
  rw [h]

theorem dispatch_eq_0xFE (s : C6502) (h : s.opcode = 0xFE) :
    s.dispatch = s.do_op_abs_x (Op.ReadWrite C6502.op_inc) := by
  unfold C6502.dispatch
  rw [h]

/-- Summary of one instruction run: the cycle count in the convention of
`c6502_tests.rs::run` (a trailing `CompleteAndFetch` T-state belongs to the
next instruction) and the final `pc`. -/
def run_result (fuel : Nat) (s : C6502) : Option (Nat × Nat) :=
  (runUntilDone fuel s).map fun r =>
    (if r.2.2 = CpuAction.CompleteAndFetch then r.2.1 - 1 else r.2.1, r.1.pc)

theorem set_lo_byte_eq (a v : Nat) (ha : a < 65536) (hv : v < 256) :
    set_lo_byte a v = a / 256 * 256 + v := by
  rw [set_lo_byte, and_ff00_eq _ ha, Nat.mul_comm, mul256_or_eq_add _ _ hv, Nat.mul_comm]

theorem set_hi_byte_eq (a v : Nat) : set_hi_byte a v = v * 256 + a % 256 := by
  rw [set_hi_byte, and255_eq_mod, or_shiftLeft8_eq_add _ _ (Nat.mod_lt _ (by norm_num))]

/-- Convenience constructor for a CPU state (all fields positional). -/
def mkC6502 (pc ac x y p sp cycle opcode value addr extra_addr : Nat)
    (mem : Nat → Nat) (writes : List (Nat × Nat)) (state : CpuState) : C6502 :=
  ⟨pc, ac, x, y, p, sp, cycle, opcode, value, addr, extra_addr, mem, writes, state⟩

theorem c65280_and_255 : (65280 : Nat) &&& 255 = 0 := by decide

theorem and_ff00_and_255 (x : Nat) : (x &&& 65280) &&& 255 = 0 := by
  rw [Nat.and_assoc, c65280_and_255, Nat.and_zero]

/-- C4: after `reset()`, exactly 8 `step()` calls complete the reset
sequence: SP is set to $00 on cycle 1, unchanged on cycles 2-3, then $FF,
$FE, $FD on cycles 4-6; cycles 7 and 8 load the PC low and high bytes from
$FFFC/$FFFD; after cycle 8 the state is `Running` with the cycle counter
back at 1, and no memory write occurs (`writes` and `mem` unchanged). -/
theorem C4_reset_sequence (s : C6502) (hmem : ∀ a, s.mem a < 256) :
    ((stepN 1 s.reset).map C6502.sp = some 0x00) ∧
    ((stepN 2 s.reset).map C6502.sp = some 0x00) ∧
    ((stepN 3 s.reset).map C6502.sp = some 0x00) ∧
    ((stepN 4 s.reset).map C6502.sp = some 0xFF) ∧
    ((stepN 5 s.reset).map C6502.sp = some 0xFE) ∧
    ((stepN 6 s.reset).map C6502.sp = some 0xFD) ∧
    (∃ sf, runUntilDone 8 s.reset = some (sf, 8, CpuAction.Complete) ∧
      sf.sp = 0xFD ∧
      sf.pc = s.mem (RESET_VECTOR + 1) * 256 + s.mem RESET_VECTOR ∧
      sf.state = CpuState.Running ∧ sf.cycle = 1 ∧
      sf.writes = s.writes ∧ sf.mem = s.mem) := by
  refine ⟨?_, ?_, ?_, ?_, ?_, ?_, ?_⟩
  · simp [stepN, C6502.step, C6502.reset, C6502.do_reset_sequence]
  · simp [stepN, C6502.step, C6502.reset, C6502.do_reset_sequence]
  · simp [stepN, C6502.step, C6502.reset, C6502.do_reset_sequence]
  · simp [stepN, C6502.step, C6502.reset, C6502.do_reset_sequence]
  · simp [stepN, C6502.step, C6502.reset, C6502.do_reset_sequence]
  · simp [stepN, C6502.step, C6502.reset, C6502.do_reset_sequence]
  · have hpc : set_hi_byte (set_lo_byte s.pc (s.mem RESET_VECTOR)) (s.mem (RESET_VECTOR + 1)) =
        s.mem (RESET_VECTOR + 1) * 256 + s.mem RESET_VECTOR := by
      rw [set_hi_byte, set_lo_byte, Nat.and_distrib_right, and_ff00_and_255, and255_eq_mod,
        Nat.mod_eq_of_lt (hmem RESET_VECTOR)]
      simp [or_shiftLeft8_eq_add _ _ (hmem RESET_VECTOR)]
    refine ⟨{ s with sp := 0xFD, pc := set_hi_byte (set_lo_byte s.pc (s.mem RESET_VECTOR)) (s.mem (RESET_VECTOR + 1)), state := .Running, cycle := 1 }, ?_, rfl, hpc, rfl, rfl, rfl, rfl⟩
    simp [runUntilDone, C6502.step, C6502.reset, C6502.do_reset_sequence]

/-- C2: an indirect JMP (opcode $6C) whose operand pointer has low byte
$FF loads the low byte of the new PC from $XXFF and the high byte from
$XX00 of the same page (the page-wrap bug), completing in exactly 5
`step()` calls including the opcode fetch. -/
theorem C2_jmp_indirect_bug (pc : Nat) (mem : Nat → Nat)
    (ac x y p sp opc0 v0 a0 e0 : Nat) (w : List (Nat × Nat))
    (hmem : ∀ a, mem a < 256) (hpc : pc < 65536)
    (h0 : mem pc = 0x6C) (h1 : mem ((pc + 1) % 65536) = 0xFF) :
    (runUntilDone 5 (mkC6502 pc ac x y p sp 1 opc0 v0 a0 e0 mem w .Running)).map
        (fun r => (r.2.1, r.2.2)) =
      some (5, CpuAction.Complete) ∧
    final_pc 5 (mkC6502 pc ac x y p sp 1 opc0 v0 a0 e0 mem w .Running) =
      some (mem (mem ((pc + 2) % 65536) * 256) * 256 +
        mem (mem ((pc + 2) % 65536) * 256 + 0xFF)) := by
  have hb_lt : mem ((pc + 2) % 65536) < 256 := hmem _
  have e2 : ((pc + 1) % 65536 + 1) % 65536 = (pc + 2) % 65536 := by omega
  have eSetHi : set_hi_byte 255 (mem ((pc + 2) % 65536)) =
      mem ((pc + 2) % 65536) * 256 + 255 := by
    rw [set_hi_byte, and255_eq_mod]
    norm_num [or_shiftLeft8_eq_add]
  have eMask1 : (mem ((pc + 2) % 65536) * 256 + 255) &&& 65280 =
      mem ((pc + 2) % 65536) * 256 := by
    rw [and_ff00_eq _ (by omega)]
    omega
  have eMask2 : (mem ((pc + 2) % 65536) * 256 + 255 + 1) &&& 255 = 0 := by
    rw [and255_eq_mod]
    omega
  have eLpc : ∀ lv hv : Nat, lv < 256 → set_hi_byte lv hv = hv * 256 + lv := by
    intro lv hv hlv
    rw [set_hi_byte, and255_eq_mod, Nat.mod_eq_of_lt hlv, or_shiftLeft8_eq_add _ _ hlv]
  refine ⟨?_, ?_⟩ <;>
    simp [runUntilDone, final_pc, mkC6502, C6502.step, C6502.dispatch,
      C6502.do_jmp_abs_indirect, C6502.read_pc_byte, C6502.read_byte, h0, h1, e2, eSetHi,
      eMask1, eMask2, eLpc _ _ (hmem _)]

def branch_opcode_tests : List (Nat × (C6502 → Bool)) :=
  [(0x10, C6502.br_bpl), (0x30, C6502.br_bmi), (0x50, C6502.br_bvc), (0x70, C6502.br_bvs),
   (0x90, C6502.br_bcc), (0xB0, C6502.br_bcs), (0xD0, C6502.br_bne), (0xF0, C6502.br_beq)]

/-- C3: for every branch instruction (BPL/BMI/BVC/BVS/BCC/BCS/BNE/BEQ)
executed in Running state: if the condition fails the instruction takes
exactly 2 cycles and the PC points at the next instruction; if it succeeds
with the target on the same page as the next-instruction PC it takes 3
cycles; on a different page it takes 4 cycles; in every taken case the
final PC is the next-instruction PC plus the sign-extended 8-bit offset
(mod 2^16). -/
theorem C3_branch_timing : ∀ opc test, (opc, test) ∈ branch_opcode_tests →
    ∀ (pc ac x y p sp opc0 v0 a0 e0 : Nat) (mem : Nat → Nat) (w : List (Nat × Nat)),
    (∀ a, mem a < 256) → pc < 65536 → mem pc = opc →
    ((test (mkC6502 pc ac x y p sp 1 opc0 v0 a0 e0 mem w .Running) = false →
      run_result 6 (mkC6502 pc ac x y p sp 1 opc0 v0 a0 e0 mem w .Running) =
        some (2, (pc + 2) % 65536)) ∧
    (test (mkC6502 pc ac x y p sp 1 opc0 v0 a0 e0 mem w .Running) = true →
      ((pc + 2) % 65536 + sign_extend_u8_u16 (mem ((pc + 1) % 65536))) % 65536 / 256 =
        (pc + 2) % 65536 / 256 →
      run_result 6 (mkC6502 pc ac x y p sp 1 opc0 v0 a0 e0 mem w .Running) =
        some (3, ((pc + 2) % 65536 + sign_extend_u8_u16 (mem ((pc + 1) % 65536))) % 65536)) ∧
    (test (mkC6502 pc ac x y p sp 1 opc0 v0 a0 e0 mem w .Running) = true →
      ((pc + 2) % 65536 + sign_extend_u8_u16 (mem ((pc + 1) % 65536))) % 65536 / 256 ≠
        (pc + 2) % 65536 / 256 →
      run_result 6 (mkC6502 pc ac x y p sp 1 opc0 v0 a0 e0 mem w .Running) =
        some (4, ((pc + 2) % 65536 + sign_extend_u8_u16 (mem ((pc + 1) % 65536))) % 65536))) := by
  intro opc test hm
  simp only [branch_opcode_tests, List.mem_cons, List.not_mem_nil, or_false,
    Prod.mk.injEq] at hm
  rcases hm with hbase | hbase | hbase | hbase | hbase | hbase | hbase | hbase <;>
  obtain ⟨rfl, rfl⟩ := hbase <;>
  · intro pc ac x y p sp opc0 v0 a0 e0 mem w hmem hpc h0
    have e2 : ((pc + 1) % 65536 + 1) % 65536 = (pc + 2) % 65536 := by omega
    have hNlt : (pc + 2) % 65536 < 65536 := by omega
    have hpc3val : set_lo_byte ((pc + 2) % 65536)
        ((pc + 2 + sign_extend_u8_u16 (mem ((pc + 1) % 65536))) % 65536 &&& 255) =
        (pc + 2) % 65536 / 256 * 256 +
          (pc + 2 + sign_extend_u8_u16 (mem ((pc + 1) % 65536))) % 65536 % 256 := by
      rw [and255_eq_mod, set_lo_byte_eq _ _ hNlt (Nat.mod_lt _ (by norm_num))]
    refine ⟨?_, ?_, ?_⟩
    · intro hcond
      simp only [C6502.br_bpl, C6502.br_bmi, C6502.br_bvc, C6502.br_bvs, C6502.br_bcc,
        C6502.br_bcs, C6502.br_bne, C6502.br_beq, mkC6502, decide_eq_false_iff_not,
        decide_eq_true_eq, SR_NEGATIVE, SR_OVERFLOW, SR_CARRY, SR_ZERO, Nat.and_one_is_mod] at hcond
      simp [run_result, runUntilDone, mkC6502, C6502.step, C6502.do_branch,
        C6502.read_pc_byte, C6502.br_bpl, C6502.br_bmi, C6502.br_bvc, C6502.br_bvs,
        C6502.br_bcc, C6502.br_bcs, C6502.br_bne, C6502.br_beq, SR_NEGATIVE, SR_OVERFLOW,
        SR_CARRY, SR_ZERO, e2, hcond, h0, dispatch_eq_0x10, dispatch_eq_0x30,
        dispatch_eq_0x50, dispatch_eq_0x70, dispatch_eq_0x90, dispatch_eq_0xB0,
        dispatch_eq_0xD0, dispatch_eq_0xF0]
    · intro hcond hsame
      simp only [C6502.br_bpl, C6502.br_bmi, C6502.br_bvc, C6502.br_bvs, C6502.br_bcc,
        C6502.br_bcs, C6502.br_bne, C6502.br_beq, mkC6502, decide_eq_false_iff_not,
        decide_eq_true_eq, SR_NEGATIVE, SR_OVERFLOW, SR_CARRY, SR_ZERO, Nat.and_one_is_mod] at hcond
      have hpc3 : set_lo_byte ((pc + 2) % 65536)
          ((pc + 2 + sign_extend_u8_u16 (mem ((pc + 1) % 65536))) % 65536 &&& 255) =
          (pc + 2 + sign_extend_u8_u16 (mem ((pc + 1) % 65536))) % 65536 := by
        rw [hpc3val]
        omega
      simp [run_result, runUntilDone, mkC6502, C6502.step, C6502.do_branch,
        C6502.read_pc_byte, C6502.br_bpl, C6502.br_bmi, C6502.br_bvc, C6502.br_bvs,
        C6502.br_bcc, C6502.br_bcs, C6502.br_bne, C6502.br_beq, SR_NEGATIVE, SR_OVERFLOW,
        SR_CARRY, SR_ZERO, e2, hcond, hpc3, h0, dispatch_eq_0x10, dispatch_eq_0x30,
        dispatch_eq_0x50, dispatch_eq_0x70, dispatch_eq_0x90, dispatch_eq_0xB0,
        dispatch_eq_0xD0, dispatch_eq_0xF0]
    · intro hcond hdiff
      simp only [C6502.br_bpl, C6502.br_bmi, C6502.br_bvc, C6502.br_bvs, C6502.br_bcc,
        C6502.br_bcs, C6502.br_bne, C6502.br_beq, mkC6502, decide_eq_false_iff_not,
        decide_eq_true_eq, SR_NEGATIVE, SR_OVERFLOW, SR_CARRY, SR_ZERO, Nat.and_one_is_mod] at hcond
      have hpc3 : set_lo_byte ((pc + 2) % 65536)
          ((pc + 2 + sign_extend_u8_u16 (mem ((pc + 1) % 65536))) % 65536 &&& 255) ≠
          (pc + 2 + sign_extend_u8_u16 (mem ((pc + 1) % 65536))) % 65536 := by
        rw [hpc3val]
        intro hEq
        apply hdiff
        omega
      simp [run_result, runUntilDone, mkC6502, C6502.step, C6502.do_branch,
        C6502.read_pc_byte, C6502.br_bpl, C6502.br_bmi, C6502.br_bvc, C6502.br_bvs,
        C6502.br_bcc, C6502.br_bcs, C6502.br_bne, C6502.br_beq, SR_NEGATIVE, SR_OVERFLOW,
        SR_CARRY, SR_ZERO, e2, hcond, hpc3, h0, dispatch_eq_0x10, dispatch_eq_0x30,
        dispatch_eq_0x50, dispatch_eq_0x70, dispatch_eq_0x90, dispatch_eq_0xB0,
        dispatch_eq_0xD0, dispatch_eq_0xF0]

theorem absIndexed_read_nocross (f : C6502 → Nat → C6502) (opc iv : Nat)
    (pc ac x y p sp opc0 v0 a0 e0 : Nat) (mem : Nat → Nat) (w : List (Nat × Nat))
    (hd : ∀ t : C6502, t.opcode = opc → t.x = x → t.y = y →
      t.dispatch = t.do_op_abs_indexed (Op.Read f) iv)
    (hmem : ∀ a, mem a < 256) (hiv : iv < 256) (h0 : mem pc = opc)
    (hcross : mem ((pc + 1) % 65536) + iv < 256) :
    instruction_cycles 8 (mkC6502 pc ac x y p sp 1 opc0 v0 a0 e0 mem w .Running) =
      some 4 := by
  have e2 : ((pc + 1) % 65536 + 1) % 65536 = (pc + 2) % 65536 := by omega
  have hmlt : mem ((pc + 1) % 65536) < 256 := hmem _
  have hex : (mem ((pc + 1) % 65536) + iv) &&& 256 = 0 :=
    (and_256_eq_zero_iff _ (by omega)).mpr hcross
  simp [instruction_cycles, runUntilDone, mkC6502, C6502.step, C6502.do_op_abs_indexed,
    C6502.do_op, C6502.read_pc_byte, C6502.read_byte, Op.is_read_or_implied, e2, h0, hex,
    hd]

theorem absIndexed_read_cross (f : C6502 → Nat → C6502) (opc iv : Nat)
    (pc ac x y p sp opc0 v0 a0 e0 : Nat) (mem : Nat → Nat) (w : List (Nat × Nat))
    (hd : ∀ t : C6502, t.opcode = opc → t.x = x → t.y = y →
      t.dispatch = t.do_op_abs_indexed (Op.Read f) iv)
    (hmem : ∀ a, mem a < 256) (hiv : iv < 256) (h0 : mem pc = opc)
    (hcross : 256 ≤ mem ((pc + 1) % 65536) + iv) :
    instruction_cycles 8 (mkC6502 pc ac x y p sp 1 opc0 v0 a0 e0 mem w .Running) =
      some 5 := by
  have e2 : ((pc + 1) % 65536 + 1) % 65536 = (pc + 2) % 65536 := by omega
  have hmlt : mem ((pc + 1) % 65536) < 256 := hmem _
  have hex : (mem ((pc + 1) % 65536) + iv) &&& 256 = 256 :=
    and_256_eq_of_ge _ (by omega) hcross
  simp [instruction_cycles, runUntilDone, mkC6502, C6502.step, C6502.do_op_abs_indexed,
    C6502.do_op, C6502.read_pc_byte, C6502.read_byte, Op.is_read_or_implied, e2, h0, hex,
    hd]

theorem absIndexed_write (f : C6502 → C6502 × Nat) (opc iv : Nat)
    (pc ac x y p sp opc0 v0 a0 e0 : Nat) (mem : Nat → Nat) (w : List (Nat × Nat))
    (hd : ∀ t : C6502, t.opcode = opc → t.x = x → t.y = y →
      t.dispatch = t.do_op_abs_indexed (Op.Write f) iv)
    (hmem : ∀ a, mem a < 256) (h0 : mem pc = opc) :
    instruction_cycles 8 (mkC6502 pc ac x y p sp 1 opc0 v0 a0 e0 mem w .Running) =
      some 5 := by
  have e2 : ((pc + 1) % 65536 + 1) % 65536 = (pc + 2) % 65536 := by omega
  simp [instruction_cycles, runUntilDone, mkC6502, C6502.step, C6502.do_op_abs_indexed,
    C6502.do_op, C6502.read_pc_byte, C6502.read_byte, C6502.write_byte,
    Op.is_read_or_implied, e2, h0, hd]

theorem absIndexed_rmw (f : C6502 → Nat → C6502 × Nat) (opc iv : Nat)
    (pc ac x y p sp opc0 v0 a0 e0 : Nat) (mem : Nat → Nat) (w : List (Nat × Nat))
    (hd : ∀ t : C6502, t.opcode = opc → t.x = x → t.y = y →
      t.dispatch = t.do_op_abs_indexed (Op.ReadWrite f) iv)
    (hfs : ∀ t v, ( (f t v).1).state = t.state)
    (hfc : ∀ t v, ( (f t v).1).cycle = t.cycle)
    (hfo : ∀ t v, ( (f t v).1).opcode = t.opcode)
    (hfx : ∀ t v, ( (f t v).1).x = t.x)
    (hfy : ∀ t v, ( (f t v).1).y = t.y)
    (hmem : ∀ a, mem a < 256) (h0 : mem pc = opc) :
    instruction_cycles 8 (mkC6502 pc ac x y p sp 1 opc0 v0 a0 e0 mem w .Running) =
      some 7 := by
  have e2 : ((pc + 1) % 65536 + 1) % 65536 = (pc + 2) % 65536 := by omega
  simp [instruction_cycles, runUntilDone, mkC6502, C6502.step, C6502.do_op_abs_indexed,
    C6502.do_op, C6502.read_pc_byte, C6502.read_byte, C6502.write_byte,
    Op.is_read_or_implied, e2, h0, hd, hfs, hfc, hfo, hfx, hfy]

def abs_x_read_opcodes : List Nat := [0x1D, 0x3D, 0x5D, 0x7D, 0xBD, 0xDD, 0xFD, 0xBC]

def abs_y_read_opcodes : List Nat := [0x19, 0x39, 0x59, 0x79, 0xB9, 0xD9, 0xF9, 0xBE]

def abs_indexed_write_opcodes : List Nat := [0x9D, 0x99]

def abs_indexed_rmw_opcodes : List Nat := [0x1E, 0x3E, 0x5E, 0x7E, 0xDE, 0xFE]

set_option maxHeartbeats 8000000

/-- C6: for every absolute,X / absolute,Y instruction executed in Running
state, a Read-type operation takes 4 cycles without a high-byte change
from indexing and 5 with one; a Write-type operation always takes 5 and a
ReadWrite-type operation always takes 7 (the fix-up cycle is always
taken), regardless of page crossing.  Cycle counts follow the test
harness convention (`instruction_cycles`). -/
theorem C6_abs_indexed_cycles :
    (∀ opc, opc ∈ abs_x_read_opcodes →
      ∀ (pc ac x y p sp opc0 v0 a0 e0 : Nat) (mem : Nat → Nat) (w : List (Nat × Nat)),
      (∀ a, mem a < 256) → x < 256 → mem pc = opc →
      (mem ((pc + 1) % 65536) + x < 256 →
        instruction_cycles 8 (mkC6502 pc ac x y p sp 1 opc0 v0 a0 e0 mem w .Running) =
          some 4) ∧
      (256 ≤ mem ((pc + 1) % 65536) + x →
        instruction_cycles 8 (mkC6502 pc ac x y p sp 1 opc0 v0 a0 e0 mem w .Running) =
          some 5)) ∧
    (∀ opc, opc ∈ abs_y_read_opcodes →
      ∀ (pc ac x y p sp opc0 v0 a0 e0 : Nat) (mem : Nat → Nat) (w : List (Nat × Nat)),
      (∀ a, mem a < 256) → y < 256 → mem pc = opc →
      (mem ((pc + 1) % 65536) + y < 256 →
        instruction_cycles 8 (mkC6502 pc ac x y p sp 1 opc0 v0 a0 e0 mem w .Running) =
          some 4) ∧
      (256 ≤ mem ((pc + 1) % 65536) + y →
        instruction_cycles 8 (mkC6502 pc ac x y p sp 1 opc0 v0 a0 e0 mem w .Running) =
          some 5)) ∧
    (∀ opc, opc ∈ abs_indexed_write_opcodes →
      ∀ (pc ac x y p sp opc0 v0 a0 e0 : Nat) (mem : Nat → Nat) (w : List (Nat × Nat)),
      (∀ a, mem a < 256) → mem pc = opc →
      instruction_cycles 8 (mkC6502 pc ac x y p sp 1 opc0 v0 a0 e0 mem w .Running) =
        some 5) ∧
    (∀ opc, opc ∈ abs_indexed_rmw_opcodes →
      ∀ (pc ac x y p sp opc0 v0 a0 e0 : Nat) (mem : Nat → Nat) (w : List (Nat × Nat)),
      (∀ a, mem a < 256) → mem pc = opc →
      instruction_cycles 8 (mkC6502 pc ac x y p sp 1 opc0 v0 a0 e0 mem w .Running) =
        some 7) := by
  refine ⟨?_, ?_, ?_, ?_⟩
  · intro opc hm
    simp only [abs_x_read_opcodes, List.mem_cons, List.not_mem_nil, or_false] at hm
    rcases hm with rfl | rfl | rfl | rfl | rfl | rfl | rfl | rfl
    · intro pc ac x y p sp opc0 v0 a0 e0 mem w hmem hx h0
      refine ⟨fun hcross => ?_, fun hcross => ?_⟩
      · exact absIndexed_read_nocross C6502.op_ora 0x1D x pc ac x y p sp opc0 v0 a0 e0 mem w
          (fun t ht hx2 hy2 => by rw [dispatch_eq_0x1D t ht]; unfold C6502.do_op_abs_x; rw [hx2])
          hmem hx h0 hcross
      · exact absIndexed_read_cross C6502.op_ora 0x1D x pc ac x y p sp opc0 v0 a0 e0 mem w
          (fun t ht hx2 hy2 => by rw [dispatch_eq_0x1D t ht]; unfold C6502.do_op_abs_x; rw [hx2])
          hmem hx h0 hcross
    · intro pc ac x y p sp opc0 v0 a0 e0 mem w hmem hx h0
      refine ⟨fun hcross => ?_, fun hcross => ?_⟩
      · exact absIndexed_read_nocross C6502.op_and 0x3D x pc ac x y p sp opc0 v0 a0 e0 mem w
          (fun t ht hx2 hy2 => by rw [dispatch_eq_0x3D t ht]; unfold C6502.do_op_abs_x; rw [hx2])
          hmem hx h0 hcross
      · exact absIndexed_read_cross C6502.op_and 0x3D x pc ac x y p sp opc0 v0 a0 e0 mem w
          (fun t ht hx2 hy2 => by rw [dispatch_eq_0x3D t ht]; unfold C6502.do_op_abs_x; rw [hx2])
          hmem hx h0 hcross
    · intro pc ac x y p sp opc0 v0 a0 e0 mem w hmem hx h0
      refine ⟨fun hcross => ?_, fun hcross => ?_⟩
      · exact absIndexed_read_nocross C6502.op_eor 0x5D x pc ac x y p sp opc0 v0 a0 e0 mem w
          (fun t ht hx2 hy2 => by rw [dispatch_eq_0x5D t ht]; unfold C6502.do_op_abs_x; rw [hx2])
          hmem hx h0 hcross
      · exact absIndexed_read_cross C6502.op_eor 0x5D x pc ac x y p sp opc0 v0 a0 e0 mem w
          (fun t ht hx2 hy2 => by rw [dispatch_eq_0x5D t ht]; unfold C6502.do_op_abs_x; rw [hx2])
          hmem hx h0 hcross
    · intro pc ac x y p sp opc0 v0 a0 e0 mem w hmem hx h0
      refine ⟨fun hcross => ?_, fun hcross => ?_⟩
      · exact absIndexed_read_nocross C6502.op_adc 0x7D x pc ac x y p sp opc0 v0 a0 e0 mem w
          (fun t ht hx2 hy2 => by rw [dispatch_eq_0x7D t ht]; unfold C6502.do_op_abs_x; rw [hx2])
          hmem hx h0 hcross
      · exact absIndexed_read_cross C6502.op_adc 0x7D x pc ac x y p sp opc0 v0 a0 e0 mem w
          (fun t ht hx2 hy2 => by rw [dispatch_eq_0x7D t ht]; unfold C6502.do_op_abs_x; rw [hx2])
          hmem hx h0 hcross
    · intro pc ac x y p sp opc0 v0 a0 e0 mem w hmem hx h0
      refine ⟨fun hcross => ?_, fun hcross => ?_⟩
      · exact absIndexed_read_nocross C6502.op_lda 0xBD x pc ac x y p sp opc0 v0 a0 e0 mem w
          (fun t ht hx2 hy2 => by rw [dispatch_eq_0xBD t ht]; unfold C6502.do_op_abs_x; rw [hx2])
          hmem hx h0 hcross
      · exact absIndexed_read_cross C6502.op_lda 0xBD x pc ac x y p sp opc0 v0 a0 e0 mem w
          (fun t ht hx2 hy2 => by rw [dispatch_eq_0xBD t ht]; unfold C6502.do_op_abs_x; rw [hx2])
          hmem hx h0 hcross
    · intro pc ac x y p sp opc0 v0 a0 e0 mem w hmem hx h0
      refine ⟨fun hcross => ?_, fun hcross => ?_⟩
      · exact absIndexed_read_nocross C6502.op_cmp 0xDD x pc ac x y p sp opc0 v0 a0 e0 mem w
          (fun t ht hx2 hy2 => by rw [dispatch_eq_0xDD t ht]; unfold C6502.do_op_abs_x; rw [hx2])
          hmem hx h0 hcross
      · exact absIndexed_read_cross C6502.op_cmp 0xDD x pc ac x y p sp opc0 v0 a0 e0 mem w
          (fun t ht hx2 hy2 => by rw [dispatch_eq_0xDD t ht]; unfold C6502.do_op_abs_x; rw [hx2])
          hmem hx h0 hcross
    · intro pc ac x y p sp opc0 v0 a0 e0 mem w hmem hx h0
      refine ⟨fun hcross => ?_, fun hcross => ?_⟩
      · exact absIndexed_read_nocross C6502.op_sbc 0xFD x pc ac x y p sp opc0 v0 a0 e0 mem w
          (fun t ht hx2 hy2 => by rw [dispatch_eq_0xFD t ht]; unfold C6502.do_op_abs_x; rw [hx2])
          hmem hx h0 hcross
      · exact absIndexed_read_cross C6502.op_sbc 0xFD x pc ac x y p sp opc0 v0 a0 e0 mem w
          (fun t ht hx2 hy2 => by rw [dispatch_eq_0xFD t ht]; unfold C6502.do_op_abs_x; rw [hx2])
          hmem hx h0 hcross
    · intro pc ac x y p sp opc0 v0 a0 e0 mem w hmem hx h0
      refine ⟨fun hcross => ?_, fun hcross => ?_⟩
      · exact absIndexed_read_nocross C6502.op_ldy 0xBC x pc ac x y p sp opc0 v0 a0 e0 mem w
          (fun t ht hx2 hy2 => by rw [dispatch_eq_0xBC t ht]; unfold C6502.do_op_abs_x; rw [hx2])
          hmem hx h0 hcross
      · exact absIndexed_read_cross C6502.op_ldy 0xBC x pc ac x y p sp opc0 v0 a0 e0 mem w
          (fun t ht hx2 hy2 => by rw [dispatch_eq_0xBC t ht]; unfold C6502.do_op_abs_x; rw [hx2])
          hmem hx h0 hcross
  · intro opc hm
    simp only [abs_y_read_opcodes, List.mem_cons, List.not_mem_nil, or_false] at hm
    rcases hm with rfl | rfl | rfl | rfl | rfl | rfl | rfl | rfl
    · intro pc ac x y p sp opc0 v0 a0 e0 mem w hmem hy h0
      refine ⟨fun hcross => ?_, fun hcross => ?_⟩
      · exact absIndexed_read_nocross C6502.op_ora 0x19 y pc ac x y p sp opc0 v0 a0 e0 mem w
          (fun t ht hx2 hy2 => by rw [dispatch_eq_0x19 t ht]; unfold C6502.do_op_abs_y; rw [hy2])
          hmem hy h0 hcross
      · exact absIndexed_read_cross C6502.op_ora 0x19 y pc ac x y p sp opc0 v0 a0 e0 mem w
          (fun t ht hx2 hy2 => by rw [dispatch_eq_0x19 t ht]; unfold C6502.do_op_abs_y; rw [hy2])
          hmem hy h0 hcross
    · intro pc ac x y p sp opc0 v0 a0 e0 mem w hmem hy h0
      refine ⟨fun hcross => ?_, fun hcross => ?_⟩
      · exact absIndexed_read_nocross C6502.op_and 0x39 y pc ac x y p sp opc0 v0 a0 e0 mem w
          (fun t ht hx2 hy2 => by rw [dispatch_eq_0x39 t ht]; unfold C6502.do_op_abs_y; rw [hy2])
          hmem hy h0 hcross
      · exact absIndexed_read_cross C6502.op_and 0x39 y pc ac x y p sp opc0 v0 a0 e0 mem w
          (fun t ht hx2 hy2 => by rw [dispatch_eq_0x39 t ht]; unfold C6502.do_op_abs_y; rw [hy2])
          hmem hy h0 hcross
    · intro pc ac x y p sp opc0 v0 a0 e0 mem w hmem hy h0
      refine ⟨fun hcross => ?_, fun hcross => ?_⟩
      · exact absIndexed_read_nocross C6502.op_eor 0x59 y pc ac x y p sp opc0 v0 a0 e0 mem w
          (fun t ht hx2 hy2 => by rw [dispatch_eq_0x59 t ht]; unfold C6502.do_op_abs_y; rw [hy2])
          hmem hy h0 hcross
      · exact absIndexed_read_cross C6502.op_eor 0x59 y pc ac x y p sp opc0 v0 a0 e0 mem w
          (fun t ht hx2 hy2 => by rw [dispatch_eq_0x59 t ht]; unfold C6502.do_op_abs_y; rw [hy2])
          hmem hy h0 hcross
    · intro pc ac x y p sp opc0 v0 a0 e0 mem w hmem hy h0
      refine ⟨fun hcross => ?_, fun hcross => ?_⟩
      · exact absIndexed_read_nocross C6502.op_adc 0x79 y pc ac x y p sp opc0 v0 a0 e0 mem w
          (fun t ht hx2 hy2 => by rw [dispatch_eq_0x79 t ht]; unfold C6502.do_op_abs_y; rw [hy2])
          hmem hy h0 hcross
      · exact absIndexed_read_cross C6502.op_adc 0x79 y pc ac x y p sp opc0 v0 a0 e0 mem w
          (fun t ht hx2 hy2 => by rw [dispatch_eq_0x79 t ht]; unfold C6502.do_op_abs_y; rw [hy2])
          hmem hy h0 hcross
    · intro pc ac x y p sp opc0 v0 a0 e0 mem w hmem hy h0
      refine ⟨fun hcross => ?_, fun hcross => ?_⟩
      · exact absIndexed_read_nocross C6502.op_lda 0xB9 y pc ac x y p sp opc0 v0 a0 e0 mem w
          (fun t ht hx2 hy2 => by rw [dispatch_eq_0xB9 t ht]; unfold C6502.do_op_abs_y; rw [hy2])
          hmem hy h0 hcross
      · exact absIndexed_read_cross C6502.op_lda 0xB9 y pc ac x y p sp opc0 v0 a0 e0 mem w
          (fun t ht hx2 hy2 => by rw [dispatch_eq_0xB9 t ht]; unfold C6502.do_op_abs_y; rw [hy2])
          hmem hy h0 hcross
    · intro pc ac x y p sp opc0 v0 a0 e0 mem w hmem hy h0
      refine ⟨fun hcross => ?_, fun hcross => ?_⟩
      · exact absIndexed_read_nocross C6502.op_cmp 0xD9 y pc ac x y p sp opc0 v0 a0 e0 mem w
          (fun t ht hx2 hy2 => by rw [dispatch_eq_0xD9 t ht]; unfold C6502.do_op_abs_y; rw [hy2])
          hmem hy h0 hcross
      · exact absIndexed_read_cross C6502.op_cmp 0xD9 y pc ac x y p sp opc0 v0 a0 e0 mem w
          (fun t ht hx2 hy2 => by rw [dispatch_eq_0xD9 t ht]; unfold C6502.do_op_abs_y; rw [hy2])
          hmem hy h0 hcross
    · intro pc ac x y p sp opc0 v0 a0 e0 mem w hmem hy h0
      refine ⟨fun hcross => ?_, fun hcross => ?_⟩
      · exact absIndexed_read_nocross C6502.op_sbc 0xF9 y pc ac x y p sp opc0 v0 a0 e0 mem w
          (fun t ht hx2 hy2 => by rw [dispatch_eq_0xF9 t ht]; unfold C6502.do_op_abs_y; rw [hy2])
          hmem hy h0 hcross
      · exact absIndexed_read_cross C6502.op_sbc 0xF9 y pc ac x y p sp opc0 v0 a0 e0 mem w
          (fun t ht hx2 hy2 => by rw [dispatch_eq_0xF9 t ht]; unfold C6502.do_op_abs_y; rw [hy2])
          hmem hy h0 hcross
    · intro pc ac x y p sp opc0 v0 a0 e0 mem w hmem hy h0
      refine ⟨fun hcross => ?_, fun hcross => ?_⟩
      · exact absIndexed_read_nocross C6502.op_ldx 0xBE y pc ac x y p sp opc0 v0 a0 e0 mem w
          (fun t ht hx2 hy2 => by rw [dispatch_eq_0xBE t ht]; unfold C6502.do_op_abs_y; rw [hy2])
          hmem hy h0 hcross
      · exact absIndexed_read_cross C6502.op_ldx 0xBE y pc ac x y p sp opc0 v0 a0 e0 mem w
          (fun t ht hx2 hy2 => by rw [dispatch_eq_0xBE t ht]; unfold C6502.do_op_abs_y; rw [hy2])
          hmem hy h0 hcross
  · intro opc hm
    simp only [abs_indexed_write_opcodes, List.mem_cons, List.not_mem_nil, or_false] at hm
    rcases hm with rfl | rfl
    · intro pc ac x y p sp opc0 v0 a0 e0 mem w hmem h0
      exact absIndexed_write C6502.op_sta 0x9D x pc ac x y p sp opc0 v0 a0 e0 mem w
        (fun t ht hx2 hy2 => by rw [dispatch_eq_0x9D t ht]; unfold C6502.do_op_abs_x; rw [hx2])
        hmem h0
    · intro pc ac x y p sp opc0 v0 a0 e0 mem w hmem h0
      exact absIndexed_write C6502.op_sta 0x99 y pc ac x y p sp opc0 v0 a0 e0 mem w
        (fun t ht hx2 hy2 => by rw [dispatch_eq_0x99 t ht]; unfold C6502.do_op_abs_y; rw [hy2])
        hmem h0
  · intro opc hm
    simp only [abs_indexed_rmw_opcodes, List.mem_cons, List.not_mem_nil, or_false] at hm
    rcases hm with rfl | rfl | rfl | rfl | rfl | rfl
    · intro pc ac x y p sp opc0 v0 a0 e0 mem w hmem h0
      exact absIndexed_rmw C6502.op_asl 0x1E x pc ac x y p sp opc0 v0 a0 e0 mem w
        (fun t ht hx2 hy2 => by rw [dispatch_eq_0x1E t ht]; unfold C6502.do_op_abs_x; rw [hx2])
        (fun t v => by cases t; simp [C6502.op_asl, C6502.set_carry, C6502.set_nz])
        (fun t v => by cases t; simp [C6502.op_asl, C6502.set_carry, C6502.set_nz])
        (fun t v => by cases t; simp [C6502.op_asl, C6502.set_carry, C6502.set_nz])
        (fun t v => by cases t; simp [C6502.op_asl, C6502.set_carry, C6502.set_nz])
        (fun t v => by cases t; simp [C6502.op_asl, C6502.set_carry, C6502.set_nz])
        hmem h0
    · intro pc ac x y p sp opc0 v0 a0 e0 mem w hmem h0
      exact absIndexed_rmw C6502.op_rol 0x3E x pc ac x y p sp opc0 v0 a0 e0 mem w
        (fun t ht hx2 hy2 => by rw [dispatch_eq_0x3E t ht]; unfold C6502.do_op_abs_x; rw [hx2])
        (fun t v => by cases t; simp [C6502.op_rol, C6502.set_carry, C6502.set_nz])
        (fun t v => by cases t; simp [C6502.op_rol, C6502.set_carry, C6502.set_nz])
        (fun t v => by cases t; simp [C6502.op_rol, C6502.set_carry, C6502.set_nz])
        (fun t v => by cases t; simp [C6502.op_rol, C6502.set_carry, C6502.set_nz])
        (fun t v => by cases t; simp [C6502.op_rol, C6502.set_carry, C6502.set_nz])
        hmem h0
    · intro pc ac x y p sp opc0 v0 a0 e0 mem w hmem h0
      exact absIndexed_rmw C6502.op_lsr 0x5E x pc ac x y p sp opc0 v0 a0 e0 mem w
        (fun t ht hx2 hy2 => by rw [dispatch_eq_0x5E t ht]; unfold C6502.do_op_abs_x; rw [hx2])
        (fun t v => by cases t; simp [C6502.op_lsr, C6502.set_carry, C6502.set_nz])
        (fun t v => by cases t; simp [C6502.op_lsr, C6502.set_carry, C6502.set_nz])
        (fun t v => by cases t; simp [C6502.op_lsr, C6502.set_carry, C6502.set_nz])
        (fun t v => by cases t; simp [C6502.op_lsr, C6502.set_carry, C6502.set_nz])
        (fun t v => by cases t; simp [C6502.op_lsr, C6502.set_carry, C6502.set_nz])
        hmem h0
    · intro pc ac x y p sp opc0 v0 a0 e0 mem w hmem h0
      exact absIndexed_rmw C6502.op_ror 0x7E x pc ac x y p sp opc0 v0 a0 e0 mem w
        (fun t ht hx2 hy2 => by rw [dispatch_eq_0x7E t ht]; unfold C6502.do_op_abs_x; rw [hx2])
        (fun t v => by cases t; simp [C6502.op_ror, C6502.set_carry, C6502.set_nz])
        (fun t v => by cases t; simp [C6502.op_ror, C6502.set_carry, C6502.set_nz])
        (fun t v => by cases t; simp [C6502.op_ror, C6502.set_carry, C6502.set_nz])
        (fun t v => by cases t; simp [C6502.op_ror, C6502.set_carry, C6502.set_nz])
        (fun t v => by cases t; simp [C6502.op_ror, C6502.set_carry, C6502.set_nz])
        hmem h0
    · intro pc ac x y p sp opc0 v0 a0 e0 mem w hmem h0
      exact absIndexed_rmw C6502.op_dec 0xDE x pc ac x y p sp opc0 v0 a0 e0 mem w
        (fun t ht hx2 hy2 => by rw [dispatch_eq_0xDE t ht]; unfold C6502.do_op_abs_x; rw [hx2])
        (fun t v => by cases t; simp [C6502.op_dec, C6502.set_carry, C6502.set_nz])
        (fun t v => by cases t; simp [C6502.op_dec, C6502.set_carry, C6502.set_nz])
        (fun t v => by cases t; simp [C6502.op_dec, C6502.set_carry, C6502.set_nz])
        (fun t v => by cases t; simp [C6502.op_dec, C6502.set_carry, C6502.set_nz])
        (fun t v => by cases t; simp [C6502.op_dec, C6502.set_carry, C6502.set_nz])
        hmem h0
    · intro pc ac x y p sp opc0 v0 a0 e0 mem w hmem h0
      exact absIndexed_rmw C6502.op_inc 0xFE x pc ac x y p sp opc0 v0 a0 e0 mem w
        (fun t ht hx2 hy2 => by rw [dispatch_eq_0xFE t ht]; unfold C6502.do_op_abs_x; rw [hx2])
        (fun t v => by cases t; simp [C6502.op_inc, C6502.set_carry, C6502.set_nz])
        (fun t v => by cases t; simp [C6502.op_inc, C6502.set_carry, C6502.set_nz])
        (fun t v => by cases t; simp [C6502.op_inc, C6502.set_carry, C6502.set_nz])
        (fun t v => by cases t; simp [C6502.op_inc, C6502.set_carry, C6502.set_nz])
        (fun t v => by cases t; simp [C6502.op_inc, C6502.set_carry, C6502.set_nz])
        hmem h0

def c2_witness_mem : Nat → Nat := fun a =>
  if a = 0x0400 then 0x6C else if a = 0x0401 then 0xFF else if a = 0x0402 then 0x1F
  else if a = 0x1FFF then 0x48 else if a = 0x1F00 then 0x20 else 0

theorem C2_jmp_indirect_bug_witness :
    (∀ a, c2_witness_mem a < 256) ∧
    final_pc 5 (mkC6502 0x0400 0 0 0 0 0xFF 1 0 0 0 0 c2_witness_mem [] .Running) =
      some 0x2048 := by
  have hmem : ∀ a, c2_witness_mem a < 256 := by
    intro a
    unfold c2_witness_mem
    split_ifs <;> norm_num
  refine ⟨hmem, ?_⟩
  have h := (C2_jmp_indirect_bug 0x0400 c2_witness_mem 0 0 0 0 0xFF 0 0 0 0 []
    hmem (by norm_num) (by decide) (by decide)).2
  rw [h]
  decide

def c3_witness_mem : Nat → Nat := fun a =>
  if a = 0x04F0 then 0xF0 else if a = 0x04F1 then 0x10 else 0

theorem C3_branch_timing_witness :
    ((0xF0, C6502.br_beq) ∈ branch_opcode_tests ∧ (∀ a, c3_witness_mem a < 256)) ∧
    run_result 6 (mkC6502 0x04F0 0 0 0 2 0xFF 1 0 0 0 0 c3_witness_mem [] .Running) =
      some (4, 0x0502) := by
  have hmem : ∀ a, c3_witness_mem a < 256 := by
    intro a
    unfold c3_witness_mem
    split_ifs <;> norm_num
  refine ⟨⟨by simp [branch_opcode_tests], hmem⟩, ?_⟩
  have h := (C3_branch_timing 0xF0 C6502.br_beq (by simp [branch_opcode_tests])
    0x04F0 0 0 0 2 0xFF 0 0 0 0 c3_witness_mem [] hmem (by norm_num) (by decide)).2.2
    (by decide) (by decide)
  rw [h]
  decide

def c4_witness_mem : Nat → Nat := fun a =>
  if a = 0xFFFC then 0x00 else if a = 0xFFFD then 0xE0 else 0

theorem C4_reset_sequence_witness :
    (∀ a, c4_witness_mem a < 256) ∧
    (stepN 6 (C6502.reset (mkC6502 0x0123 0 0 0 0 0xFF 1 0 0 0 0 c4_witness_mem []
      .Off))).map C6502.sp = some 0xFD := by
  have hmem : ∀ a, c4_witness_mem a < 256 := by
    intro a
    unfold c4_witness_mem
    split_ifs <;> norm_num
  exact ⟨hmem, (C4_reset_sequence (mkC6502 0x0123 0 0 0 0 0xFF 1 0 0 0 0 c4_witness_mem []
    .Off) hmem).2.2.2.2.2.1⟩

def c6_witness_mem : Nat → Nat := fun a =>
  if a = 0x0400 then 0xBD else if a = 0x0401 then 0x00 else if a = 0x0402 then 0x10 else 0

theorem C6_abs_indexed_cycles_witness :
    (0xBD ∈ abs_x_read_opcodes ∧ (∀ a, c6_witness_mem a < 256)) ∧
    instruction_cycles 8 (mkC6502 0x0400 0 0x40 0 0 0xFF 1 0 0 0 0 c6_witness_mem []
      .Running) = some 4 := by
  have hmem : ∀ a, c6_witness_mem a < 256 := by
    intro a
    unfold c6_witness_mem
    split_ifs <;> norm_num
  refine ⟨⟨by decide, hmem⟩, ?_⟩
  exact (C6_abs_indexed_cycles.1 0xBD (by decide) 0x0400 0 0x40 0 0 0xFF 0 0 0 0
    c6_witness_mem [] hmem (by norm_num) (by decide)).1 (by decide)

/-! ### Banked memory (src/rustycoat/src/core/memory.rs)

A `MemoryBank` trait object is a record of its four methods; a method that
can panic returns `Option`.  `Bank.write_byte` returns the updated raw RAM
view (the banks exercised here never mutate their own state on a write:
`RomBank::write_byte` panics).  `Memory`'s 65536-byte `ram` vector is a
read function `Nat → Nat`, and the 256-entry page `map` a function
`Nat → Nat × Nat` giving each page its `(bank_id, offset)` pair. -/

/-- The `MemoryBank` trait: `size`, `is_writeable`, `read_byte(addr, offset,
&ram)`, `write_byte(addr, offset, val, &mut ram)` (panic modelled as
`none`, success as the new RAM view). -/
structure Bank where
  size : Nat
  is_writeable : Nat → Bool
  read_byte : Nat → Nat → (Nat → Nat) → Nat
  write_byte : Nat → Nat → Nat → (Nat → Nat) → Option (Nat → Nat)

/-- `RomBank`: reads come from the byte image (`0` past its end), writes
panic, and `is_writeable` is constantly `false`.  `(addr - offset) as usize`
is the wrapping `u16` difference. -/
def RomBank (bytes : List Nat) : Bank where
  size := bytes.length
  is_writeable := fun _ => false
  read_byte := fun addr offset _ram =>
    let a := (addr + 65536 - offset) % 65536
    if a < bytes.length then bytes.getD a 0 else 0
  write_byte := fun _ _ _ _ => none

/-- `struct Memory { ram, banks, map }`. -/
structure Memory where
  ram : Nat → Nat
  banks : List Bank
  map : Nat → Nat × Nat

/-- The freshly constructed memory of `Memory::new_shared()`: zeroed RAM,
no banks, every page mapped `(0, 0)`. -/
def Memory.new : Memory where
  ram := fun _ => 0
  banks := []
  map := fun _ => (0, 0)

/-- The page-filling loop body of `configure_banks`: set `map[page]` to `v`
for every `page` in `lo..=hi`. -/
def fillPages (map : Nat → Nat × Nat) (lo hi : Nat) (v : Nat × Nat) :
    Nat → Nat × Nat :=
  fun page => if lo ≤ page ∧ page ≤ hi then v else map page

/-- `Memory::configure_banks`: install `banks`, clear the map, then apply
each `(start_addr, length, bank_id, target_offset)` config in order.  The
four `assert!`s are the nested `if`s (a failure is `none`); note that
`bank_id` itself is never checked. -/
def Memory.configure_banks (m : Memory) (banks : List Bank)
    (configs : List (Nat × Nat × Nat × Nat)) : Option Memory :=
  List.foldlM
    (fun mm e =>
      let start_addr := e.1
      let length := e.2.1
      let bank_id := e.2.2.1
      let target_offset := e.2.2.2
      if start_addr &&& 0xFF = 0 then
        if 0 < length ∧ length &&& 0xFF = 0 then
          if target_offset ≤ start_addr then
            if (start_addr >>> 8) + (length >>> 8) - 1 ≤ 0xff then
              some { mm with
                map := fillPages mm.map (start_addr >>> 8)
                  ((start_addr >>> 8) + (length >>> 8) - 1)
                  (bank_id, start_addr - target_offset) }
            else none
          else none
        else none
      else none)
    { m with banks := banks, map := fun _ => (0, 0) }
    configs

/-- `Memory::read_byte`: look up the page's `(bank_id, offset)`; a positive
`bank_id` indexes `banks[bank_id - 1]` (out of bounds panics, `none`),
otherwise read raw RAM. -/
def Memory.read_byte (m : Memory) (address : Nat) : Option Nat :=
  let bank_id := (m.map (address >>> 8)).1
  let offset := (m.map (address >>> 8)).2
  if 0 < bank_id then
    match m.banks[bank_id - 1]? with
    | some b => some (b.read_byte address offset m.ram)
    | none => none
  else
    some (m.ram address)

/-- `Memory::write_byte`: a write to a page whose bank answers
`is_writeable` goes to the bank; any other write — unmapped page, or bank
not writeable — falls through to the raw RAM cell.  Indexing a missing
bank panics (`none`). -/
def Memory.write_byte (m : Memory) (address value : Nat) : Option Memory :=
  let bank_id := (m.map (address >>> 8)).1
  let offset := (m.map (address >>> 8)).2
  if 0 < bank_id then
    match m.banks[bank_id - 1]? with
    | some b =>
      if b.is_writeable ((address + 65536 - offset) % 65536) then
        match b.write_byte address offset value m.ram with
        | some ram2 => some { m with ram := ram2 }
        | none => none
      else
        some { m with ram := fun a => if a = address then value else m.ram a }
    | none => none
  else
    some { m with ram := fun a => if a = address then value else m.ram a }

/-- C5: writes to a ROM-shadowed page land in the raw RAM cell while reads
keep returning the ROM byte, and on an unmapped page a write followed by a
read round-trips the stored value. -/
theorem C5_rom_shadow_writes (m : Memory) (addr v : Nat) :
    (∀ bank_id offset bytes,
        m.map (addr >>> 8) = (bank_id, offset) → 0 < bank_id →
        m.banks[bank_id - 1]? = some (RomBank bytes) →
        ∃ m2, m.write_byte addr v = some m2 ∧
          m2.ram addr = v ∧
          m2.read_byte addr = m.read_byte addr) ∧
    (∀ offset0, m.map (addr >>> 8) = (0, offset0) →
        ∃ m2, m.write_byte addr v = some m2 ∧
          m2.read_byte addr = some v) := by
  constructor
  · intro bank_id offset bytes hmap hpos hbank
    refine ⟨{ m with ram := fun a => if a = addr then v else m.ram a }, ?_, ?_, ?_⟩
    · simp [Memory.write_byte, hmap, hpos, hbank, RomBank]
    · simp
    · simp [Memory.read_byte, hmap, hpos, hbank, RomBank]
  · intro offset0 hmap
    refine ⟨{ m with ram := fun a => if a = addr then v else m.ram a }, ?_, ?_⟩
    · simp [Memory.write_byte, hmap]
    · simp [Memory.read_byte, hmap]

/-- A memory with a 4-byte `RomBank` mapped at `$3000..$33FF` and every
other page unmapped (the layout `banked_rom` in `memory.rs` builds). -/
def c5_mem : Memory where
  ram := fun _ => 0
  banks := [RomBank [0xDE, 0xAD, 0xBE, 0xEF]]
  map := fillPages (fun _ => (0, 0)) 0x30 0x33 (1, 0x3000)

theorem C5_rom_shadow_writes_witness :
    (∃ m2, c5_mem.write_byte 0x3003 0xCD = some m2 ∧
      m2.ram 0x3003 = 0xCD ∧
      m2.read_byte 0x3003 = c5_mem.read_byte 0x3003) ∧
    (∃ m2, c5_mem.write_byte 0xBADA 0xFC = some m2 ∧
      m2.read_byte 0xBADA = some 0xFC) := by
  constructor
  · exact (C5_rom_shadow_writes c5_mem 0x3003 0xCD).1 1 0x3000
      [0xDE, 0xAD, 0xBE, 0xEF] (by simp [c5_mem, fillPages]) (by decide) rfl
  · exact (C5_rom_shadow_writes c5_mem 0xBADA 0xFC).2 0
      (by simp [c5_mem, fillPages])

/-- C10: `configure_banks` accepts a config whose `bank_id` exceeds the
number of installed banks — every assert passes and the call succeeds —
and the fault surfaces only later: both `read_byte` and `write_byte` panic
(`none`) on every address of a page mapped to the phantom bank. -/
theorem C10_configure_unchecked_bank_id (m : Memory) (banks : List Bank)
    (start_addr length bank_id target_offset : Nat)
    (h1 : start_addr &&& 0xFF = 0)
    (h2 : 0 < length) (h3 : length &&& 0xFF = 0)
    (h4 : target_offset ≤ start_addr)
    (h5 : (start_addr >>> 8) + (length >>> 8) - 1 ≤ 0xff)
    (hbad : banks.length < bank_id) :
    ∃ m2,
      m.configure_banks banks [(start_addr, length, bank_id, target_offset)] =
        some m2 ∧
      ∀ addr, start_addr >>> 8 ≤ addr >>> 8 →
        addr >>> 8 ≤ (start_addr >>> 8) + (length >>> 8) - 1 →
        m2.read_byte addr = none ∧ m2.write_byte addr 0 = none := by
  have hpos : 0 < bank_id := Nat.lt_of_le_of_lt (Nat.zero_le _) hbad
  have hget : banks[bank_id - 1]? = none :=
    List.getElem?_eq_none (Nat.le_sub_one_of_lt hbad)
  refine ⟨⟨m.ram, banks, fillPages (fun _ => (0, 0)) (start_addr >>> 8) ((start_addr >>> 8) + (length >>> 8) - 1) (bank_id, start_addr - target_offset)⟩, ?_, ?_⟩
  · simp [Memory.configure_banks, h1, h2, h3, h4, h5]
    omega
  · intro addr hlo hhi
    constructor
    · simp [Memory.read_byte, fillPages, hlo, hhi, hpos, hget]
    · simp [Memory.write_byte, fillPages, hlo, hhi, hpos, hget]

theorem C10_configure_unchecked_bank_id_witness :
    List.length ([] : List Bank) < 1 ∧
    ∃ m2,
      Memory.new.configure_banks [] [(0x3000, 256, 1, 0)] = some m2 ∧
      ∀ addr, 0x3000 >>> 8 ≤ addr >>> 8 →
        addr >>> 8 ≤ (0x3000 >>> 8) + (256 >>> 8) - 1 →
        m2.read_byte addr = none ∧ m2.write_byte addr 0 = none :=
  ⟨by decide,
    C10_configure_unchecked_bank_id Memory.new [] 0x3000 256 1 0
      (by decide) (by decide) (by decide) (by decide) (by decide) (by decide)⟩

/-! ### Ports and the legacy pin (src/rustycoat/src/core/ports.rs,
src/rustycoat/src/core/mod.rs)

A channel endpoint pair is modelled as the receiver's liveness plus the
queue of delivered values: `send` enqueues and reports success exactly
when the receiver is still alive (`crossbeam` and `mpsc` senders both
return `Err` once the receiving side is dropped). -/

/-- A sender endpoint: whether the consumer still exists, and the values
delivered so far. -/
structure Channel where
  receiver_alive : Bool
  queue : List Nat

/-- `send(v)`: deliver and succeed if the receiver is alive, otherwise
fail (`false`) leaving the queue untouched. -/
def Channel.send (c : Channel) (v : Nat) : Channel × Bool :=
  if c.receiver_alive then ({ c with queue := c.queue ++ [v] }, true)
  else (c, false)

/-- `OutputPort<T>` (ports.rs) at `T = u8`-like values: the latched value
and the optional sender. -/
structure OutputPort where
  value : Nat
  sender : Option Channel

/-- `OutputPort::update`: latch the new value, then, if connected, send it
and discard the send's `Result` (`.ok()`).  Total — it never panics. -/
def OutputPort.update (p : OutputPort) (new_value : Nat) : OutputPort :=
  let p1 : OutputPort := { p with value := new_value }
  match p1.sender with
  | some s => { p1 with sender := some (Channel.send s new_value).1 }
  | none => p1

/-- The legacy `Pin` of core/mod.rs. -/
inductive Pin where
  | Output : Nat → Channel → Pin
  | Input : Nat → Channel → Pin
  | None : Nat → Pin

/-- `Pin::update`: on an `Output` pin it latches the value and then
`unwrap`s the send result — aborting the process (`none`) when the
consumer is gone; on an `Input` pin it panics outright; on an unconnected
pin it is a no-op. -/
def Pin.update (p : Pin) (new_value : Nat) : Option Pin :=
  match p with
  | .Output _ s =>
    match Channel.send s new_value with
    | (s2, true) => some (.Output new_value s2)
    | (_, false) => none
  | .Input _ _ => none
  | .None v0 => some (.None v0)

/-- C7 counterexample: the claim is false for the legacy `Pin::update` of
core/mod.rs (still in service — the clock's output is a `Pin`): with the
consumer gone, `update` `unwrap`s the failed send and aborts instead of
returning normally. -/
theorem C7_pin_update_abort_counterexample :
    Pin.update (Pin.Output 0 { receiver_alive := false, queue := [] }) 5 =
      none := rfl

/-- C7 (amended to `OutputPort::update` of ports.rs): `update` latches the
new value — observable via `value()` — and returns normally even when the
consumer is gone, the failed delivery being swallowed: the channel is left
exactly as it was. -/
theorem C7_output_update_swallows_failure (p : OutputPort) (v : Nat)
    (c : Channel) (hc : p.sender = some c)
    (hdead : c.receiver_alive = false) :
    (p.update v).value = v ∧ (p.update v).sender = some c := by
  simp [OutputPort.update, hc, Channel.send, hdead]

theorem C7_output_update_swallows_failure_witness :
    ((OutputPort.update { value := 0, sender := some { receiver_alive := false, queue := [] } } 5).value = 5) ∧
    ((OutputPort.update { value := 0, sender := some { receiver_alive := false, queue := [] } } 5).sender = some { receiver_alive := false, queue := [] }) :=
  C7_output_update_swallows_failure
    { value := 0, sender := some { receiver_alive := false, queue := [] } } 5
    { receiver_alive := false, queue := [] } rfl rfl
